import Mathlib

/-
Formal model of the A2UI agent server (project_alpha/a2ui_frontend/server).

The Python sources embedded here:
  a2ui_builder.py   : the A2UI v0.8 message builder and the dict-to-valueMap helper
  models.py         : status/priority enums, labels and transitions
  pages/tickets.py  : ticket list / detail / create / edit page and data builders
  pages/tags.py     : tag page and data builders
  pages/error.py    : not-found and error page builders
  pages/layout.py   : application layout wrapper
  main.py           : generate_page_messages (SSE page stream), stream_ui
                      query merging, process_action and handle_action

Conventions of the embedding:
  - Python dicts that carry heterogeneous JSON-like data are modelled by the
    inductive type PyVal; association lists keep dict insertion order.
  - json.dumps serialization is elided: a JSONL message is modelled by the
    structured value Msg (serialization of distinct Msg values is injective,
    so nothing provable is lost).
  - await-ed backend calls are modelled by a Backend record of pure
    functions returning Except String _, where error e stands for a raised
    exception whose str() is e.
  - Python int values are modelled by Int; float payloads do not occur in
    the code paths treated here except attachment size formatting, which is
    modelled exactly over Nat (division by a power of two is exact in
    binary floating point for the sizes involved).
-/

set_option maxRecDepth 10000

namespace A2UI

/-- A2UI value union: literalString / literalNumber / literalBoolean / path,
as produced by the static helpers of A2UIBuilder (a2ui_builder.py). -/
inductive Value where
  | literalString : String → Value
  | literalNumber : Int → Value
  | literalBoolean : Bool → Value
  | path : String → Value
deriving DecidableEq, Repr

/-- One data-model entry: a dict of the form
key plus exactly one of valueString / valueNumber / valueBoolean / valueMap,
as produced by value_string / value_number / value_bool / value_map. -/
inductive Entry where
  | valueString : String → String → Entry
  | valueNumber : String → Int → Entry
  | valueBoolean : String → Bool → Entry
  | valueMap : String → List Entry → Entry

/-- Model of a runtime Python value as it appears in dict payloads handled
by build_value_map_from_dict and the action context dicts: strings,
booleans, ints (Python numerics), dicts (ordered association lists),
lists, None, and a catch-all constructor for any other object, carrying
only its str() rendering. -/
inductive PyVal where
  | str : String → PyVal
  | bool : Bool → PyVal
  | int : Int → PyVal
  | dict : List (String × PyVal) → PyVal
  | list : List PyVal → PyVal
  | none : PyVal
  | other : String → PyVal

/-- A single-quote character, used by the models of Python repr() and of
enum-constructor error messages. -/
def sq : String := String.singleton (Char.ofNat 39)

-- Python str methods over the character list of a String, written by
-- structural recursion (the corresponding core String functions are
-- position-based and equivalent on the inputs used here).

/-- str.startswith(pre). -/
def strStartsWith (s pre : String) : Bool := pre.data.isPrefixOf s.data

/-- str.endswith(suf). -/
def strEndsWith (s suf : String) : Bool := suf.data.isSuffixOf s.data

/-- The slice s[:n]. -/
def strTake (s : String) (n : Nat) : String := String.mk (s.data.take n)

/-- The slice s[n:]. -/
def strDrop (s : String) (n : Nat) : String := String.mk (s.data.drop n)

/-- str.strip() for the ASCII whitespace handled by int(). -/
def strStrip (s : String) : String :=
  String.mk (((s.data.dropWhile Char.isWhitespace).reverse.dropWhile Char.isWhitespace).reverse)

/-- Split a character list at the first occurrence of a non-empty
separator: the part before it and the part after it, when it occurs. -/
def splitFirstAux (sep : List Char) : List Char → Option (List Char × List Char)
  | [] => Option.none
  | c :: rest =>
      if sep.isPrefixOf (c :: rest) then some ([], (c :: rest).drop sep.length)
      else match splitFirstAux sep rest with
        | some (pre, post) => some (c :: pre, post)
        | Option.none => Option.none

/-- str.split(sep, 1) for a non-empty separator: the part before the
first separator and, when the separator occurs, the remainder. -/
def splitFirst (s sep : String) : String × Option String :=
  match splitFirstAux sep.data s.data with
  | some (pre, post) => (String.mk pre, some (String.mk post))
  | Option.none => (s, Option.none)

/-- The fueled loop of str.split(sep) for a non-empty separator. -/
def strSplitOnAux (sep : List Char) : Nat → List Char → List (List Char)
  | 0, l => [l]
  | fuel + 1, l =>
      match splitFirstAux sep l with
      | some (pre, post) => pre :: strSplitOnAux sep fuel post
      | Option.none => [l]

/-- str.split(sep) for a non-empty separator (every separator used by the
server is non-empty); the fuel bound exceeds the number of possible
occurrences. -/
def strSplitOn (s sep : String) : List String :=
  if sep = "" then [s]
  else (strSplitOnAux sep.data (s.data.length + 1) s.data).map String.mk

/-- str.replace(old, new) for a non-empty old (the only form the server
uses): every occurrence replaced left to right. -/
def strReplace (s old new : String) : String :=
  if old = "" then s
  else String.intercalate new (strSplitOn s old)

mutual

/-- Model of Python repr() on PyVal (containers render their elements with
repr; percent-level lexical details beyond quoting are not needed by any
code path treated here). -/
def pyRepr : PyVal → String
  | PyVal.str s => sq ++ s ++ sq
  | PyVal.bool true => "True"
  | PyVal.bool false => "False"
  | PyVal.int n => toString n
  | PyVal.none => "None"
  | PyVal.list xs => "[" ++ String.intercalate ", " (pyReprList xs) ++ "]"
  | PyVal.dict d => "\x7b" ++ String.intercalate ", " (pyReprDict d) ++ "\x7d"
  | PyVal.other r => r

/-- repr() of the elements of a list. -/
def pyReprList : List PyVal → List String
  | [] => []
  | x :: rest => pyRepr x :: pyReprList rest

/-- repr() of the key/value pairs of a dict. -/
def pyReprDict : List (String × PyVal) → List String
  | [] => []
  | (k, v) :: rest => (sq ++ k ++ sq ++ ": " ++ pyRepr v) :: pyReprDict rest

end

/-- Model of Python str(): identical to repr() except on strings. -/
def pyStr : PyVal → String
  | PyVal.str s => s
  | v => pyRepr v

/-- Model of Python truthiness on PyVal. -/
def pyTruthy : PyVal → Bool
  | PyVal.str s => s ≠ ""
  | PyVal.bool b => b
  | PyVal.int n => n ≠ 0
  | PyVal.dict d => !d.isEmpty
  | PyVal.list l => !l.isEmpty
  | PyVal.none => false
  | PyVal.other _ => true

/-- First-match lookup in an ordered association list; models dict lookup
(the lists we build have unique keys, as Python dicts do). -/
def dictGet {α : Type} (d : List (String × α)) (k : String) : Option α :=
  (d.find? (fun p => p.1 == k)).map (fun p => p.2)

/-- dict.get with a default. -/
def dictGetD {α : Type} (d : List (String × α)) (k : String) (default : α) : α :=
  (dictGet d k).getD default

/-- Model of dict assignment d[k] = v: replaces in place when the key is
present, appends otherwise (insertion order preserved). -/
def dictSet {α : Type} (d : List (String × α)) (k : String) (v : α) :
    List (String × α) :=
  if d.any (fun p => p.1 == k) then
    d.map (fun p => if p.1 == k then (p.1, v) else p)
  else
    d ++ [(k, v)]

-- a2ui_builder.py : helpers value_string / value_number / value_bool / value_map

/-- value_string(key, value) from a2ui_builder.py. -/
def value_string (key : String) (value : String) : Entry :=
  Entry.valueString key value

/-- value_number(key, value) from a2ui_builder.py. -/
def value_number (key : String) (value : Int) : Entry :=
  Entry.valueNumber key value

/-- value_bool(key, value) from a2ui_builder.py. -/
def value_bool (key : String) (value : Bool) : Entry :=
  Entry.valueBoolean key value

/-- value_map(key, items) from a2ui_builder.py. -/
def value_map (key : String) (items : List Entry) : Entry :=
  Entry.valueMap key items

mutual

/-- The per-key conversion step of build_value_map_from_dict
(a2ui_builder.py lines 329-348): strings to valueString; booleans to
valueBoolean (the isinstance(value, bool) check precedes the
isinstance(value, (int, float)) check in the source, and Python bool is a
subclass of int, so booleans never reach the numeric branch); remaining
numerics to valueNumber; dicts to a nested valueMap; lists to a valueMap
with synthetic keys item0, item1, ...; None to an empty valueString.
A value of any other type matches no branch and yields no entry. -/
def convertEntry (key : String) (v : PyVal) : List Entry :=
  match v with
  | PyVal.str s => [value_string key s]
  | PyVal.bool b => [value_bool key b]
  | PyVal.int n => [value_number key n]
  | PyVal.dict d => [value_map key (build_value_map_from_dict d)]
  | PyVal.list xs => [value_map key (listEntries 0 xs)]
  | PyVal.none => [value_string key ""]
  | PyVal.other _ => []

/-- build_value_map_from_dict(data) from a2ui_builder.py: converts a dict
to A2UI ValueMap contents, iterating the items in insertion order. -/
def build_value_map_from_dict : List (String × PyVal) → List Entry
  | [] => []
  | p :: rest => convertEntry p.1 p.2 ++ build_value_map_from_dict rest

/-- The inner loop of the list branch of build_value_map_from_dict:
dict elements recurse, any other element is rendered with str(); keys are
item0, item1, ... in order. -/
def listEntries (i : Nat) : List PyVal → List Entry
  | [] => []
  | PyVal.dict d :: rest =>
      value_map ("item" ++ toString i) (build_value_map_from_dict d)
        :: listEntries (i + 1) rest
  | x :: rest =>
      value_string ("item" ++ toString i) (pyStr x) :: listEntries (i + 1) rest

end

-- a2ui_builder.py : the A2UIBuilder class

/-- A key/value pair inside a Button action context list, e.g.
a dict of key "to" and value literalString "/tickets". -/
structure CtxEntry where
  key : String
  value : Value
deriving DecidableEq, Repr

/-- The template dict of a List component:
componentId plus dataBinding. -/
structure Template where
  componentId : String
  dataBinding : String
deriving DecidableEq, Repr

/-- The children property of a List component: either an explicitList of
ids or a template. -/
inductive ListChildren where
  | explicitList : List String → ListChildren
  | template : Template → ListChildren
deriving DecidableEq, Repr

/-- The component union built by the A2UIBuilder factory methods; each
constructor carries exactly the property keys the corresponding method
stores (an Option field is the property that the method adds only when
its argument is truthy / not None). -/
inductive Comp where
  | Text (text : Value) (usageHint : Option String)
  | Button (child : String) (actionName : String) (context : Option (List CtxEntry))
  | TextField (label : Value) (text : Option Value) (textFieldType : Option String)
  | Column (children : List String) (alignment : Option String) (distribution : Option String)
  | Row (children : List String) (alignment : Option String) (distribution : Option String)
  | Card (child : String)
  | ListComp (children : Option ListChildren) (direction : String) (alignment : Option String)
  | Icon (name : Value)
  | Divider
  | Modal (entryPointChild : String) (contentChild : String)
  | CheckBox (label : Value) (value : Value)
  | Slider (value : Value) (minValue : Option Int) (maxValue : Option Int)
  | MultiSelect (label : Value) (options : List (List CtxEntry)) (selectedPath : String) (actionName : String)
deriving DecidableEq, Repr

/-- One element of the builder component list: the dict of an id and a
component payload. -/
structure Component where
  id : String
  component : Comp
deriving DecidableEq, Repr

/-- The four JSONL wire messages; the source emits them as json.dumps of
the corresponding dict, which we keep structurally. -/
inductive Msg where
  | surfaceUpdate (surfaceId : String) (components : List Component)
  | dataModelUpdate (surfaceId : String) (path : String) (contents : List Entry)
  | beginRendering (surfaceId : String) (root : String)
  | deleteSurface (surfaceId : String)

/-- The Union[str, dict] text-like arguments of the builder methods: a
bare string or an already-built Value dict. -/
inductive TextArg where
  | str : String → TextArg
  | val : Value → TextArg
deriving DecidableEq, Repr

/-- The wrapping the builder methods apply:
a bare string becomes a literalString, a dict is kept. -/
def TextArg.toValue : TextArg → Value
  | TextArg.str s => Value.literalString s
  | TextArg.val v => v

/-- Truthiness of a Union[str, dict] argument: an empty string is falsy, a
Value dict (always non-empty in the source) is truthy. -/
def TextArg.truthy : TextArg → Bool
  | TextArg.str s => s ≠ ""
  | TextArg.val _ => true

/-- Truthiness of an Optional[str] argument. -/
def strOptTruthy : Option String → Bool
  | Option.none => false
  | some s => s ≠ ""

/-- An Optional[str] property stored under an `if argument:` guard. -/
def strProp (v : Option String) : Option String :=
  if strOptTruthy v then v else Option.none

/-- Mutable state of A2UIBuilder: the surface id and the accumulated
component list (and the _data_updates list, which the source initializes
and clears but never appends to). -/
structure A2UIBuilder where
  surface_id : String
  components : List Component
  data_updates : List Entry

/-- A2UIBuilder(surface_id): fresh builder with empty accumulators
(the Python default argument is "main"). -/
def A2UIBuilder.init (surface_id : String) : A2UIBuilder :=
  { surface_id := surface_id, components := [], data_updates := [] }

/-- reset(): clears the accumulated components and data updates; the
surface id is untouched. -/
def A2UIBuilder.reset (b : A2UIBuilder) : A2UIBuilder :=
  { b with components := [], data_updates := [] }

/-- literal_string static helper. -/
def A2UIBuilder.literal_string (value : String) : Value := Value.literalString value

/-- literal_number static helper. -/
def A2UIBuilder.literal_number (value : Int) : Value := Value.literalNumber value

/-- literal_bool static helper. -/
def A2UIBuilder.literal_bool (value : Bool) : Value := Value.literalBoolean value

/-- path static helper. -/
def A2UIBuilder.path (value : String) : Value := Value.path value

/-- Append one component dict to the accumulated list. -/
def A2UIBuilder.push (b : A2UIBuilder) (c : Component) : A2UIBuilder :=
  { b with components := b.components ++ [c] }

/-- text(component_id, text, usage_hint=None): usageHint stored only when
truthy. -/
def A2UIBuilder.text (b : A2UIBuilder) (component_id : String) (t : TextArg)
    (usage_hint : Option String) : A2UIBuilder :=
  b.push ⟨component_id, Comp.Text t.toValue (strProp usage_hint)⟩

/-- button(component_id, child_id, action_name, context=None): the context
list is stored only when truthy (None and the empty list are omitted). -/
def A2UIBuilder.button (b : A2UIBuilder) (component_id : String) (child_id : String)
    (action_name : String) (context : Option (List CtxEntry)) : A2UIBuilder :=
  let ctx := match context with
    | some l => if l.isEmpty then Option.none else some l
    | Option.none => Option.none
  b.push ⟨component_id, Comp.Button child_id action_name ctx⟩

/-- text_field(component_id, label, text=None, text_field_type=None):
label is wrapped like text(); the text property is stored only when
truthy, wrapped the same way. -/
def A2UIBuilder.text_field (b : A2UIBuilder) (component_id : String) (label : TextArg)
    (text : Option TextArg) (text_field_type : Option String) : A2UIBuilder :=
  let t := match text with
    | some ta => if ta.truthy then some ta.toValue else Option.none
    | Option.none => Option.none
  b.push ⟨component_id, Comp.TextField label.toValue t (strProp text_field_type)⟩

/-- column(component_id, children, alignment=None, distribution=None). -/
def A2UIBuilder.column (b : A2UIBuilder) (component_id : String) (children : List String)
    (alignment : Option String) (distribution : Option String) : A2UIBuilder :=
  b.push ⟨component_id, Comp.Column children (strProp alignment) (strProp distribution)⟩

/-- row(component_id, children, alignment=None, distribution=None). -/
def A2UIBuilder.row (b : A2UIBuilder) (component_id : String) (children : List String)
    (alignment : Option String) (distribution : Option String) : A2UIBuilder :=
  b.push ⟨component_id, Comp.Row children (strProp alignment) (strProp distribution)⟩

/-- card(component_id, child). -/
def A2UIBuilder.card (b : A2UIBuilder) (component_id : String) (child : String) : A2UIBuilder :=
  b.push ⟨component_id, Comp.Card child⟩

/-- list_component(component_id, children=None, template=None,
direction="vertical", alignment=None): a truthy children list wins over a
template; with neither, no children property is stored. -/
def A2UIBuilder.list_component (b : A2UIBuilder) (component_id : String)
    (children : Option (List String)) (template : Option Template)
    (direction : String) (alignment : Option String) : A2UIBuilder :=
  let ch : Option ListChildren := match children, template with
    | some l, _ => if l.isEmpty then
        (match template with
          | some t => some (ListChildren.template t)
          | Option.none => Option.none)
      else some (ListChildren.explicitList l)
    | Option.none, some t => some (ListChildren.template t)
    | Option.none, Option.none => Option.none
  b.push ⟨component_id, Comp.ListComp ch direction (strProp alignment)⟩

/-- icon(component_id, name): name wrapped like text(). -/
def A2UIBuilder.icon (b : A2UIBuilder) (component_id : String) (name : TextArg) : A2UIBuilder :=
  b.push ⟨component_id, Comp.Icon name.toValue⟩

/-- divider(component_id). -/
def A2UIBuilder.divider (b : A2UIBuilder) (component_id : String) : A2UIBuilder :=
  b.push ⟨component_id, Comp.Divider⟩

/-- modal(component_id, entry_point_child, content_child). -/
def A2UIBuilder.modal (b : A2UIBuilder) (component_id : String)
    (entry_point_child : String) (content_child : String) : A2UIBuilder :=
  b.push ⟨component_id, Comp.Modal entry_point_child content_child⟩

/-- checkbox(component_id, label, value): label and value wrapped from
bare string / bool into literals when not already dicts. -/
def A2UIBuilder.checkbox (b : A2UIBuilder) (component_id : String) (label : TextArg)
    (value : Value) : A2UIBuilder :=
  b.push ⟨component_id, Comp.CheckBox label.toValue value⟩

/-- slider(component_id, value, min_value=None, max_value=None): the
bounds are stored under `is not None` checks. -/
def A2UIBuilder.slider (b : A2UIBuilder) (component_id : String) (value : Value)
    (min_value : Option Int) (max_value : Option Int) : A2UIBuilder :=
  b.push ⟨component_id, Comp.Slider value min_value max_value⟩

/-- multi_select(component_id, label, options, selected_path,
action_name="toggle_multi_select"). -/
def A2UIBuilder.multi_select (b : A2UIBuilder) (component_id : String) (label : TextArg)
    (options : List (List CtxEntry)) (selected_path : String) (action_name : String) :
    A2UIBuilder :=
  b.push ⟨component_id, Comp.MultiSelect label.toValue options selected_path action_name⟩

/-- add_component(component). -/
def A2UIBuilder.add_component (b : A2UIBuilder) (component : Component) : A2UIBuilder :=
  b.push component

/-- add_components(components). -/
def A2UIBuilder.add_components (b : A2UIBuilder) (cs : List Component) : A2UIBuilder :=
  { b with components := b.components ++ cs }

/-- build_surface_update(): one surfaceUpdate message carrying the
accumulated component list; the accumulator is not cleared. -/
def A2UIBuilder.build_surface_update (b : A2UIBuilder) : Msg :=
  Msg.surfaceUpdate b.surface_id b.components

/-- build_data_model_update(path, contents). -/
def A2UIBuilder.build_data_model_update (b : A2UIBuilder) (path : String)
    (contents : List Entry) : Msg :=
  Msg.dataModelUpdate b.surface_id path contents

/-- build_begin_rendering(root). -/
def A2UIBuilder.build_begin_rendering (b : A2UIBuilder) (root : String) : Msg :=
  Msg.beginRendering b.surface_id root

/-- build_delete_surface(). -/
def A2UIBuilder.build_delete_surface (b : A2UIBuilder) : Msg :=
  Msg.deleteSurface b.surface_id

-- models.py : enums, labels, transitions

/-- TicketStatus enum (member names as in models.py). -/
inductive TicketStatus where
  | OPEN | IN_PROGRESS | COMPLETED | CANCELLED
deriving DecidableEq, Repr

/-- The string value of each TicketStatus member. -/
def TicketStatus.value : TicketStatus → String
  | TicketStatus.OPEN => "open"
  | TicketStatus.IN_PROGRESS => "in_progress"
  | TicketStatus.COMPLETED => "completed"
  | TicketStatus.CANCELLED => "cancelled"

/-- Model of the enum constructor TicketStatus(s): the member whose value
is s, or a raised ValueError for any other string. -/
def ticketStatusOfString (s : String) : Except String TicketStatus :=
  if s = "open" then Except.ok TicketStatus.OPEN
  else if s = "in_progress" then Except.ok TicketStatus.IN_PROGRESS
  else if s = "completed" then Except.ok TicketStatus.COMPLETED
  else if s = "cancelled" then Except.ok TicketStatus.CANCELLED
  else Except.error (sq ++ s ++ sq ++ " is not a valid TicketStatus")

/-- Priority enum (member names as in models.py). -/
inductive Priority where
  | LOW | MEDIUM | HIGH | URGENT
deriving DecidableEq, Repr

/-- The string value of each Priority member. -/
def Priority.value : Priority → String
  | Priority.LOW => "low"
  | Priority.MEDIUM => "medium"
  | Priority.HIGH => "high"
  | Priority.URGENT => "urgent"

/-- Model of the enum constructor Priority(s). -/
def priorityOfString (s : String) : Except String Priority :=
  if s = "low" then Except.ok Priority.LOW
  else if s = "medium" then Except.ok Priority.MEDIUM
  else if s = "high" then Except.ok Priority.HIGH
  else if s = "urgent" then Except.ok Priority.URGENT
  else Except.error (sq ++ s ++ sq ++ " is not a valid Priority")

/-- STATUS_LABELS: total over the enum, so the .get default in the callers
is never used once the enum constructor has succeeded. -/
def STATUS_LABELS : TicketStatus → String
  | TicketStatus.OPEN => "待处理"
  | TicketStatus.IN_PROGRESS => "处理中"
  | TicketStatus.COMPLETED => "已完成"
  | TicketStatus.CANCELLED => "已取消"

/-- PRIORITY_LABELS: total over the enum. -/
def PRIORITY_LABELS : Priority → String
  | Priority.LOW => "低"
  | Priority.MEDIUM => "中"
  | Priority.HIGH => "高"
  | Priority.URGENT => "紧急"

/-- STATUS_TRANSITIONS: total over the enum, so the .get(_, []) default in
build_ticket_detail_page is never used. -/
def STATUS_TRANSITIONS : TicketStatus → List TicketStatus
  | TicketStatus.OPEN => [TicketStatus.IN_PROGRESS, TicketStatus.CANCELLED]
  | TicketStatus.IN_PROGRESS => [TicketStatus.OPEN, TicketStatus.COMPLETED, TicketStatus.CANCELLED]
  | TicketStatus.COMPLETED => [TicketStatus.OPEN]
  | TicketStatus.CANCELLED => [TicketStatus.OPEN]

-- Backend JSON payloads, as the fields the page builders access.

/-- A tag object as delivered by the backend and read by the page code
(fields id, name, color; is_predefined read via .get in tags.py). -/
structure TagD where
  id : String
  name : String
  color : String
  is_predefined : Bool
deriving DecidableEq, Repr

/-- A ticket object as delivered by the backend, with the fields the page
code reads; description and resolution are read with .get / `or`
fallbacks, so they are optional. -/
structure TicketD where
  id : String
  title : String
  description : Option String
  status : String
  priority : String
  resolution : Option String
  created_at : String
  updated_at : String
  tags : List TagD
deriving DecidableEq, Repr

/-- An attachment object (fields id, filename, size_bytes). -/
structure AttachmentD where
  id : String
  filename : String
  size_bytes : Nat
deriving DecidableEq, Repr

/-- A ticket history item (fields change_type, old_value, new_value,
created_at; the values are read with .get or-fallbacks). -/
structure HistoryD where
  change_type : String
  old_value : Option String
  new_value : Option String
  created_at : String
deriving DecidableEq, Repr

/-- The history endpoint response dict; generate_page_messages reads
.get("data", []). -/
structure HistoryResponse where
  data : Option (List HistoryD)
deriving DecidableEq, Repr

/-- A paginated tickets list response; build_tickets_data and
generate_page_messages read data, page and total_pages through .get with
defaults. -/
structure TicketsResponse where
  data : Option (List TicketD)
  page : Option Int
  total_pages : Option Int
deriving DecidableEq, Repr

-- pages/error.py

/-- build_not_found_page(builder) from pages/error.py. -/
def build_not_found_page (builder : A2UIBuilder) : A2UIBuilder × String × List String :=
  let builder := builder.icon "notfound-icon" (TextArg.str "error_outline")
  let builder := builder.text "notfound-title" (TextArg.str "404") (some "h1")
  let builder := builder.text "notfound-subtitle" (TextArg.str "页面未找到") (some "h2")
  let builder := builder.text "notfound-desc" (TextArg.str "您访问的页面不存在，请检查URL是否正确") Option.none
  let builder := builder.icon "notfound-home-icon" (TextArg.str "home")
  let builder := builder.text "notfound-home-text" (TextArg.str "返回首页") Option.none
  let builder := builder.row "notfound-home-content" ["notfound-home-icon", "notfound-home-text"] (some "center") Option.none
  let builder := builder.button "notfound-home-btn" "notfound-home-content" "navigate"
    (some [⟨"to", Value.literalString "/tickets"⟩])
  let builder := builder.column "notfound-page"
    ["notfound-icon", "notfound-title", "notfound-subtitle", "notfound-desc", "notfound-home-btn"]
    (some "center") Option.none
  (builder, "notfound-page", [])

/-- build_error_page(builder, error_message="发生错误") from pages/error.py. -/
def build_error_page (builder : A2UIBuilder) (error_message : String) :
    A2UIBuilder × String × List String :=
  let builder := builder.icon "error-icon" (TextArg.str "error")
  let builder := builder.text "error-title" (TextArg.str "出错了") (some "h1")
  let builder := builder.text "error-message" (TextArg.str error_message) Option.none
  let builder := builder.icon "error-retry-icon" (TextArg.str "refresh")
  let builder := builder.text "error-retry-text" (TextArg.str "重试") Option.none
  let builder := builder.row "error-retry-content" ["error-retry-icon", "error-retry-text"] (some "center") Option.none
  let builder := builder.button "error-retry-btn" "error-retry-content" "retry" (some [])
  let builder := builder.icon "error-home-icon" (TextArg.str "home")
  let builder := builder.text "error-home-text" (TextArg.str "返回首页") Option.none
  let builder := builder.row "error-home-content" ["error-home-icon", "error-home-text"] (some "center") Option.none
  let builder := builder.button "error-home-btn" "error-home-content" "navigate"
    (some [⟨"to", Value.literalString "/tickets"⟩])
  let builder := builder.row "error-actions" ["error-retry-btn", "error-home-btn"] (some "center") Option.none
  let builder := builder.column "error-page" ["error-icon", "error-title", "error-message", "error-actions"] (some "center") Option.none
  (builder, "error-page", [])

/-- build_loading_state(builder) from pages/error.py. -/
def build_loading_state (builder : A2UIBuilder) : A2UIBuilder × String × List String :=
  let builder := builder.icon "loading-icon" (TextArg.str "hourglass_empty")
  let builder := builder.text "loading-text" (TextArg.str "加载中...") Option.none
  let builder := builder.column "loading-state" ["loading-icon", "loading-text"] (some "center") Option.none
  (builder, "loading-state", [])

-- pages/layout.py

/-- build_app_layout(builder, content_id, active_nav="tickets") from
pages/layout.py; returns the builder. -/
def build_app_layout (builder : A2UIBuilder) (content_id : String)
    (active_nav : String) : A2UIBuilder :=
  let _ := active_nav
  let builder := builder.text "nav-logo-text" (TextArg.str "Ticket System") (some "h2")
  let builder := builder.text "nav-tickets-text" (TextArg.str "票据管理") Option.none
  let builder := builder.button "nav-tickets" "nav-tickets-text" "navigate"
    (some [⟨"to", Value.literalString "/tickets"⟩])
  let builder := builder.text "nav-tags-text" (TextArg.str "标签管理") Option.none
  let builder := builder.button "nav-tags" "nav-tags-text" "navigate"
    (some [⟨"to", Value.literalString "/tags"⟩])
  let builder := builder.row "nav-items" ["nav-tickets", "nav-tags"] (some "center") Option.none
  let builder := builder.row "nav-header" ["nav-logo-text", "nav-items"] (some "center") (some "spaceBetween")
  let builder := builder.divider "divider-nav"
  let builder := builder.column "app-layout" ["nav-header", "divider-nav", content_id] Option.none Option.none
  builder

-- pages/tags.py

/-- build_tags_page(builder) from pages/tags.py. -/
def build_tags_page (builder : A2UIBuilder) : A2UIBuilder × String × List String :=
  let builder := builder.text "tags-title" (TextArg.str "标签管理") (some "h1")
  let builder := builder.text "tags-add-text" (TextArg.str "+ 新建标签") Option.none
  let builder := builder.button "tags-add-btn" "tags-add-text" "show_create_tag_form" (some [])
  let builder := builder.row "tags-header" ["tags-title", "tags-add-btn"] (some "center") (some "spaceBetween")
  let builder := builder.text "tag-form-title" (TextArg.str "新建标签") (some "h3")
  let builder := builder.text "tag-form-name-label" (TextArg.str "标签名称") (some "h4")
  let builder := builder.text_field "tag-form-name-input" (TextArg.str "请输入标签名称")
    (some (TextArg.val (Value.path "/app/tags/form/name"))) Option.none
  let builder := builder.text "tag-form-color-label" (TextArg.str "颜色") (some "h4")
  let builder := builder.text "tag-color-blue-text" (TextArg.str "● 蓝色") Option.none
  let builder := builder.button "tag-color-blue" "tag-color-blue-text" "set_tag_color"
    (some [⟨"color", Value.literalString "#3B82F6"⟩])
  let builder := builder.text "tag-color-green-text" (TextArg.str "● 绿色") Option.none
  let builder := builder.button "tag-color-green" "tag-color-green-text" "set_tag_color"
    (some [⟨"color", Value.literalString "#10B981"⟩])
  let builder := builder.text "tag-color-yellow-text" (TextArg.str "● 黄色") Option.none
  let builder := builder.button "tag-color-yellow" "tag-color-yellow-text" "set_tag_color"
    (some [⟨"color", Value.literalString "#F59E0B"⟩])
  let builder := builder.text "tag-color-red-text" (TextArg.str "● 红色") Option.none
  let builder := builder.button "tag-color-red" "tag-color-red-text" "set_tag_color"
    (some [⟨"color", Value.literalString "#EF4444"⟩])
  let builder := builder.text "tag-color-purple-text" (TextArg.str "● 紫色") Option.none
  let builder := builder.button "tag-color-purple" "tag-color-purple-text" "set_tag_color"
    (some [⟨"color", Value.literalString "#8B5CF6"⟩])
  let builder := builder.row "tag-color-btns"
    ["tag-color-blue", "tag-color-green", "tag-color-yellow", "tag-color-red", "tag-color-purple"]
    (some "center") Option.none
  let builder := builder.column "tag-form-fields"
    ["tag-form-name-label", "tag-form-name-input", "tag-form-color-label", "tag-color-btns"]
    Option.none Option.none
  let builder := builder.text "tag-form-cancel-text" (TextArg.str "取消") Option.none
  let builder := builder.button "tag-form-cancel" "tag-form-cancel-text" "hide_create_tag_form" (some [])
  let builder := builder.text "tag-form-submit-text" (TextArg.str "创建标签") Option.none
  let builder := builder.button "tag-form-submit" "tag-form-submit-text" "create_tag"
    (some [⟨"form", Value.path "/app/tags/form"⟩])
  let builder := builder.row "tag-form-actions" ["tag-form-cancel", "tag-form-submit"] Option.none (some "end")
  let builder := builder.column "tag-form-content" ["tag-form-title", "tag-form-fields", "tag-form-actions"] Option.none Option.none
  let builder := builder.card "tag-form-card" "tag-form-content"
  let builder := builder.text "tags-predefined-label" (TextArg.str "预定义标签") (some "h4")
  let builder := builder.text "predefined-tag-name" (TextArg.val (Value.path "name")) Option.none
  let builder := builder.list_component "tags-predefined-list" Option.none
    (some ⟨"predefined-tag-name", "/app/tags/predefined"⟩) "horizontal" Option.none
  let builder := builder.column "tags-predefined-section" ["tags-predefined-label", "tags-predefined-list"] Option.none Option.none
  let builder := builder.card "tags-predefined-card" "tags-predefined-section"
  let builder := builder.text "tags-custom-label" (TextArg.str "自定义标签") (some "h4")
  let builder := builder.text "custom-tag-name" (TextArg.val (Value.path "name")) Option.none
  let builder := builder.text "custom-tag-delete-text" (TextArg.str "删除") Option.none
  let builder := builder.button "custom-tag-delete" "custom-tag-delete-text" "delete_tag"
    (some [⟨"id", Value.path "id"⟩])
  let builder := builder.row "custom-tag-item" ["custom-tag-name", "custom-tag-delete"] (some "center") (some "spaceBetween")
  let builder := builder.list_component "tags-custom-list" Option.none
    (some ⟨"custom-tag-item", "/app/tags/custom"⟩) "vertical" Option.none
  let builder := builder.text "tags-custom-empty" (TextArg.str "暂无自定义标签") Option.none
  let builder := builder.column "tags-custom-section" ["tags-custom-label", "tags-custom-list"] Option.none Option.none
  let builder := builder.card "tags-custom-card" "tags-custom-section"
  let builder := builder.column "tags-page"
    ["tags-header", "tag-form-card", "tags-predefined-card", "tags-custom-card"] Option.none Option.none
  (builder, "tags-page", [])

/-- The per-tag valueMap of build_tags_data (shared by the predefined and
custom loops). -/
def tagEntry (i : Nat) (tag : TagD) : Entry :=
  value_map ("tag" ++ toString i) (build_value_map_from_dict
    [("id", PyVal.str tag.id), ("name", PyVal.str tag.name), ("color", PyVal.str tag.color)])

/-- The enumerate loop over a tag list in build_tags_data. -/
def tagEntries (i : Nat) : List TagD → List Entry
  | [] => []
  | tag :: rest => tagEntry i tag :: tagEntries (i + 1) rest

/-- build_tags_data(tags) from pages/tags.py. -/
def build_tags_data (tags : List TagD) : List Msg :=
  let builder := A2UIBuilder.init "main"
  let form_data := [value_string "name" "", value_string "color" "#3B82F6"]
  let msg1 := builder.build_data_model_update "/app/tags/form" form_data
  let predefined := tags.filter (fun t => t.is_predefined)
  let msg2 := builder.build_data_model_update "/app/tags/predefined" (tagEntries 0 predefined)
  let custom := tags.filter (fun t => !t.is_predefined)
  let msg3 := builder.build_data_model_update "/app/tags/custom" (tagEntries 0 custom)
  [msg1, msg2, msg3]

-- pages/tickets.py

/-- build_tickets_page(builder) from pages/tickets.py. -/
def build_tickets_page (builder : A2UIBuilder) : A2UIBuilder × String × List String :=
  let builder := builder.text "tickets-title" (TextArg.str "票据列表") (some "h1")
  let builder := builder.text "tickets-add-text" (TextArg.str "+ 新建票据") Option.none
  let builder := builder.button "tickets-add-btn" "tickets-add-text" "navigate"
    (some [⟨"to", Value.literalString "/tickets/new"⟩])
  let builder := builder.row "tickets-header" ["tickets-title", "tickets-add-btn"] (some "center") (some "spaceBetween")
  let builder := builder.text_field "tickets-search" (TextArg.str "搜索票据...")
    (some (TextArg.val (Value.path "/app/tickets/query/search"))) Option.none
  let builder := builder.text "tickets-search-btn-text" (TextArg.str "搜索") Option.none
  let builder := builder.button "tickets-search-btn" "tickets-search-btn-text" "search_tickets"
    (some [⟨"search", Value.path "/app/tickets/query/search"⟩])
  let builder := builder.row "tickets-search-row" ["tickets-search", "tickets-search-btn"] (some "center") Option.none
  let builder := builder.text "filter-all-text" (TextArg.str "全部") Option.none
  let builder := builder.button "filter-all" "filter-all-text" "filter_status"
    (some [⟨"status", Value.literalString ""⟩])
  let builder := builder.text "filter-open-text" (TextArg.str "待处理") Option.none
  let builder := builder.button "filter-open" "filter-open-text" "filter_status"
    (some [⟨"status", Value.literalString "open"⟩])
  let builder := builder.text "filter-progress-text" (TextArg.str "处理中") Option.none
  let builder := builder.button "filter-progress" "filter-progress-text" "filter_status"
    (some [⟨"status", Value.literalString "in_progress"⟩])
  let builder := builder.text "filter-completed-text" (TextArg.str "已完成") Option.none
  let builder := builder.button "filter-completed" "filter-completed-text" "filter_status"
    (some [⟨"status", Value.literalString "completed"⟩])
  let builder := builder.text "filter-cancelled-text" (TextArg.str "已取消") Option.none
  let builder := builder.button "filter-cancelled" "filter-cancelled-text" "filter_status"
    (some [⟨"status", Value.literalString "cancelled"⟩])
  let builder := builder.row "tickets-status-filters"
    ["filter-all", "filter-open", "filter-progress", "filter-completed", "filter-cancelled"]
    (some "center") Option.none
  let builder := builder.text "priority-all-text" (TextArg.str "全部优先级") Option.none
  let builder := builder.button "priority-all" "priority-all-text" "filter_priority"
    (some [⟨"priority", Value.literalString ""⟩])
  let builder := builder.text "priority-low-text" (TextArg.str "低") Option.none
  let builder := builder.button "priority-low" "priority-low-text" "filter_priority"
    (some [⟨"priority", Value.literalString "low"⟩])
  let builder := builder.text "priority-medium-text" (TextArg.str "中") Option.none
  let builder := builder.button "priority-medium" "priority-medium-text" "filter_priority"
    (some [⟨"priority", Value.literalString "medium"⟩])
  let builder := builder.text "priority-high-text" (TextArg.str "高") Option.none
  let builder := builder.button "priority-high" "priority-high-text" "filter_priority"
    (some [⟨"priority", Value.literalString "high"⟩])
  let builder := builder.text "priority-urgent-text" (TextArg.str "紧急") Option.none
  let builder := builder.button "priority-urgent" "priority-urgent-text" "filter_priority"
    (some [⟨"priority", Value.literalString "urgent"⟩])
  let builder := builder.row "tickets-priority-filters"
    ["priority-all", "priority-low", "priority-medium", "priority-high", "priority-urgent"]
    (some "center") Option.none
  let builder := builder.column "tickets-filters"
    ["tickets-search-row", "tickets-status-filters", "tickets-priority-filters"] Option.none Option.none
  let builder := builder.card "tickets-filters-card" "tickets-filters"
  let builder := builder.text "ticket-item-title" (TextArg.val (Value.path "title")) (some "h3")
  let builder := builder.text "ticket-item-status" (TextArg.val (Value.path "statusLabel")) Option.none
  let builder := builder.text "ticket-item-priority" (TextArg.val (Value.path "priorityLabel")) Option.none
  let builder := builder.text "ticket-item-date" (TextArg.val (Value.path "created_at")) Option.none
  let builder := builder.row "ticket-item-meta"
    ["ticket-item-status", "ticket-item-priority", "ticket-item-date"] (some "center") Option.none
  let builder := builder.column "ticket-item-content" ["ticket-item-title", "ticket-item-meta"] Option.none Option.none
  let builder := builder.text "ticket-item-arrow" (TextArg.str "→") Option.none
  let builder := builder.row "ticket-item-row" ["ticket-item-content", "ticket-item-arrow"] (some "center") (some "spaceBetween")
  let builder := builder.button "ticket-item-btn" "ticket-item-row" "view_ticket"
    (some [⟨"id", Value.path "id"⟩])
  let builder := builder.card "ticket-item-card" "ticket-item-btn"
  let builder := builder.list_component "tickets-list" Option.none
    (some ⟨"ticket-item-card", "/app/tickets/list"⟩) "vertical" Option.none
  let builder := builder.text "tickets-empty-title" (TextArg.str "暂无票据") (some "h3")
  let builder := builder.text "tickets-empty-desc" (TextArg.str "点击上方按钮创建第一个票据") Option.none
  let builder := builder.column "tickets-empty" ["tickets-empty-title", "tickets-empty-desc"] (some "center") Option.none
  let builder := builder.text "pagination-prev-text" (TextArg.str "← 上一页") Option.none
  let builder := builder.button "pagination-prev" "pagination-prev-text" "paginate"
    (some [⟨"page", Value.path "/app/tickets/pagination/prevPage"⟩])
  let builder := builder.text "pagination-info" (TextArg.val (Value.path "/app/tickets/pagination/info")) Option.none
  let builder := builder.text "pagination-next-text" (TextArg.str "下一页 →") Option.none
  let builder := builder.button "pagination-next" "pagination-next-text" "paginate"
    (some [⟨"page", Value.path "/app/tickets/pagination/nextPage"⟩])
  let builder := builder.row "tickets-pagination"
    ["pagination-prev", "pagination-info", "pagination-next"] (some "center") (some "center")
  let builder := builder.column "tickets-content" ["tickets-list", "tickets-pagination"] Option.none Option.none
  let builder := builder.column "tickets-page" ["tickets-header", "tickets-filters-card", "tickets-content"] Option.none Option.none
  (builder, "tickets-page", [])

/-- The per-ticket valueMap of the build_tickets_data loop; the two enum
constructors may raise on an unknown status or priority string. -/
def ticketListEntry (i : Nat) (ticket : TicketD) : Except String Entry := do
  let st ← ticketStatusOfString ticket.status
  let pr ← priorityOfString ticket.priority
  return value_map ("ticket" ++ toString i) (build_value_map_from_dict
    [("id", PyVal.str ticket.id),
     ("title", PyVal.str ticket.title),
     ("status", PyVal.str ticket.status),
     ("statusLabel", PyVal.str (STATUS_LABELS st)),
     ("priority", PyVal.str ticket.priority),
     ("priorityLabel", PyVal.str (PRIORITY_LABELS pr)),
     ("created_at", PyVal.str (strTake ticket.created_at 10))])

/-- The enumerate loop over the tickets of build_tickets_data. -/
def ticketListEntries (i : Nat) : List TicketD → Except String (List Entry)
  | [] => Except.ok []
  | t :: rest => do
      let e ← ticketListEntry i t
      let es ← ticketListEntries (i + 1) rest
      return e :: es

/-- build_tickets_data(tickets_response) from pages/tickets.py: note the
single parameter (its call site in main.py passes five arguments). -/
def build_tickets_data (tickets_response : TicketsResponse) : Except String (List Msg) := do
  let builder := A2UIBuilder.init "main"
  let query_data :=
    [value_string "search" "", value_string "status" "", value_string "priority" "",
     value_number "page" (tickets_response.page.getD 1)]
  let msg1 := builder.build_data_model_update "/app/tickets/query" query_data
  let tickets := tickets_response.data.getD []
  let list_data ← ticketListEntries 0 tickets
  let msg2 := builder.build_data_model_update "/app/tickets/list" list_data
  let page := tickets_response.page.getD 1
  let total_pages := tickets_response.total_pages.getD 1
  let pagination_data :=
    [value_number "page" page,
     value_number "totalPages" total_pages,
     value_number "prevPage" (max 1 (page - 1)),
     value_number "nextPage" (min total_pages (page + 1)),
     value_string "info" ("第 " ++ toString page ++ " 页 / 共 " ++ toString total_pages ++ " 页")]
  let msg3 := builder.build_data_model_update "/app/tickets/pagination" pagination_data
  return [msg1, msg2, msg3]

/-- The status-transition button loop of build_ticket_detail_page:
appends a text and a button per allowed target status and collects the
button ids in order. -/
def statusBtns (b : A2UIBuilder) (ticket_id : String) :
    List TicketStatus → A2UIBuilder × List String
  | [] => (b, [])
  | ts :: rest =>
      let btn_id := "status-btn-" ++ ts.value
      let text_id := "status-btn-text-" ++ ts.value
      let b := b.text text_id (TextArg.str ("→ " ++ STATUS_LABELS ts)) Option.none
      let b := b.button btn_id text_id "change_status"
        (some [⟨"id", Value.literalString ticket_id⟩, ⟨"status", Value.literalString ts.value⟩])
      let (b, ids) := statusBtns b ticket_id rest
      (b, btn_id :: ids)

/-- build_ticket_detail_page(builder, ticket) from pages/tickets.py; the
TicketStatus(status) conversion raises ValueError on an unknown status
string, so the result is Except-valued. -/
def build_ticket_detail_page (builder : A2UIBuilder) (ticket : TicketD) :
    Except String (A2UIBuilder × String × List String) := do
  let ticket_id := ticket.id
  let status := ticket.status
  let builder := builder.text "detail-back-text" (TextArg.str "← 返回列表") Option.none
  let builder := builder.button "detail-back-btn" "detail-back-text" "navigate"
    (some [⟨"to", Value.literalString "/tickets"⟩])
  let builder := builder.text "detail-title" (TextArg.val (Value.path "/app/ticket/detail/title")) (some "h1")
  let builder := builder.text "detail-edit-text" (TextArg.str "编辑") Option.none
  let builder := builder.button "detail-edit-btn" "detail-edit-text" "navigate"
    (some [⟨"to", Value.literalString ("/tickets/" ++ ticket_id ++ "/edit")⟩])
  let builder := builder.text "detail-delete-text" (TextArg.str "删除") Option.none
  let builder := builder.button "detail-delete-btn" "detail-delete-text" "show_delete_dialog"
    (some [⟨"id", Value.literalString ticket_id⟩])
  let builder := builder.row "detail-actions" ["detail-edit-btn", "detail-delete-btn"] (some "center") Option.none
  let builder := builder.row "detail-header" ["detail-back-btn", "detail-title", "detail-actions"]
    (some "center") (some "spaceBetween")
  let builder := builder.text "detail-desc-label" (TextArg.str "描述") (some "h4")
  let builder := builder.text "detail-desc-content" (TextArg.val (Value.path "/app/ticket/detail/description")) Option.none
  let builder := builder.column "detail-desc-col" ["detail-desc-label", "detail-desc-content"] Option.none Option.none
  let builder := builder.card "detail-desc-card" "detail-desc-col"
  let builder := builder.text "detail-resolution-label" (TextArg.str "处理结果") (some "h4")
  let builder := builder.text "detail-resolution-content" (TextArg.val (Value.path "/app/ticket/detail/resolution")) Option.none
  let builder := builder.column "detail-resolution-col" ["detail-resolution-label", "detail-resolution-content"] Option.none Option.none
  let builder := builder.card "detail-resolution-card" "detail-resolution-col"
  let builder := builder.text "detail-status-label" (TextArg.str "状态") (some "h4")
  let builder := builder.text "detail-status-value" (TextArg.val (Value.path "/app/ticket/detail/statusLabel")) Option.none
  let st ← ticketStatusOfString status
  let allowed_transitions := STATUS_TRANSITIONS st
  let (builder, status_btns) := statusBtns builder ticket_id allowed_transitions
  let builder := builder.row "detail-status-btns" status_btns (some "center") Option.none
  let builder := builder.column "detail-status-col"
    ["detail-status-label", "detail-status-value", "detail-status-btns"] Option.none Option.none
  let builder := builder.card "detail-status-card" "detail-status-col"
  let builder := builder.text "detail-priority-label" (TextArg.str "优先级") (some "h4")
  let builder := builder.text "detail-priority-value" (TextArg.val (Value.path "/app/ticket/detail/priorityLabel")) Option.none
  let builder := builder.column "detail-priority-col" ["detail-priority-label", "detail-priority-value"] Option.none Option.none
  let builder := builder.card "detail-priority-card" "detail-priority-col"
  let builder := builder.text "detail-tags-label" (TextArg.str "标签") (some "h4")
  let builder := builder.text "detail-tag-name" (TextArg.val (Value.path "name")) Option.none
  let builder := builder.list_component "detail-tags-list" Option.none
    (some ⟨"detail-tag-name", "/app/ticket/tags"⟩) "horizontal" Option.none
  let builder := builder.column "detail-tags-col" ["detail-tags-label", "detail-tags-list"] Option.none Option.none
  let builder := builder.card "detail-tags-card" "detail-tags-col"
  let builder := builder.text "detail-time-label" (TextArg.str "时间信息") (some "h4")
  let builder := builder.text "detail-created-label" (TextArg.str "创建时间") Option.none
  let builder := builder.text "detail-created-value" (TextArg.val (Value.path "/app/ticket/detail/created_at")) Option.none
  let builder := builder.row "detail-created-row" ["detail-created-label", "detail-created-value"] Option.none (some "spaceBetween")
  let builder := builder.text "detail-updated-label" (TextArg.str "更新时间") Option.none
  let builder := builder.text "detail-updated-value" (TextArg.val (Value.path "/app/ticket/detail/updated_at")) Option.none
  let builder := builder.row "detail-updated-row" ["detail-updated-label", "detail-updated-value"] Option.none (some "spaceBetween")
  let builder := builder.column "detail-time-col" ["detail-time-label", "detail-created-row", "detail-updated-row"] Option.none Option.none
  let builder := builder.card "detail-time-card" "detail-time-col"
  let builder := builder.text "detail-attach-label" (TextArg.str "附件") (some "h4")
  let builder := builder.text "detail-attach-filename" (TextArg.val (Value.path "filename")) Option.none
  let builder := builder.text "detail-attach-size" (TextArg.val (Value.path "sizeFormatted")) Option.none
  let builder := builder.row "detail-attach-info" ["detail-attach-filename", "detail-attach-size"] Option.none (some "spaceBetween")
  let builder := builder.text "detail-attach-download-text" (TextArg.str "下载") Option.none
  let builder := builder.button "detail-attach-download" "detail-attach-download-text" "download_attachment"
    (some [⟨"id", Value.path "id"⟩])
  let builder := builder.row "detail-attach-item" ["detail-attach-info", "detail-attach-download"]
    (some "center") (some "spaceBetween")
  let builder := builder.list_component "detail-attach-list" Option.none
    (some ⟨"detail-attach-item", "/app/ticket/attachments"⟩) "vertical" Option.none
  let builder := builder.text "detail-attach-empty" (TextArg.str "暂无附件") Option.none
  let builder := builder.column "detail-attach-col" ["detail-attach-label", "detail-attach-list"] Option.none Option.none
  let builder := builder.card "detail-attach-card" "detail-attach-col"
  let builder := builder.text "detail-history-label" (TextArg.str "变更历史") (some "h4")
  let builder := builder.text "detail-history-type" (TextArg.val (Value.path "changeTypeLabel")) Option.none
  let builder := builder.text "detail-history-time" (TextArg.val (Value.path "created_at")) Option.none
  let builder := builder.text "detail-history-old" (TextArg.val (Value.path "old_value")) Option.none
  let builder := builder.text "detail-history-arrow" (TextArg.str "→") Option.none
  let builder := builder.text "detail-history-new" (TextArg.val (Value.path "new_value")) Option.none
  let builder := builder.row "detail-history-change" ["detail-history-old", "detail-history-arrow", "detail-history-new"]
    (some "center") Option.none
  let builder := builder.column "detail-history-item" ["detail-history-type", "detail-history-time", "detail-history-change"]
    Option.none Option.none
  let builder := builder.list_component "detail-history-list" Option.none
    (some ⟨"detail-history-item", "/app/ticket/history"⟩) "vertical" Option.none
  let builder := builder.column "detail-history-col" ["detail-history-label", "detail-history-list"] Option.none Option.none
  let builder := builder.card "detail-history-card" "detail-history-col"
  let main_cards := ["detail-desc-card"]
    ++ (match ticket.resolution with
        | some r => if r ≠ "" then ["detail-resolution-card"] else []
        | Option.none => [])
    ++ ["detail-attach-card"]
  let builder := builder.column "detail-main" main_cards Option.none Option.none
  let builder := builder.column "detail-sidebar"
    ["detail-status-card", "detail-priority-card", "detail-tags-card", "detail-time-card", "detail-history-card"]
    Option.none Option.none
  let builder := builder.row "detail-body" ["detail-main", "detail-sidebar"] Option.none (some "start")
  let builder := builder.column "detail-page" ["detail-header", "detail-body"] Option.none Option.none
  let builder := builder.text "delete-modal-title" (TextArg.str "确认删除") (some "h3")
  let builder := builder.text "delete-modal-desc" (TextArg.str "确定要删除这个票据吗？此操作无法撤销。") Option.none
  let builder := builder.text "delete-modal-cancel-text" (TextArg.str "取消") Option.none
  let builder := builder.button "delete-modal-cancel" "delete-modal-cancel-text" "dismiss_dialog" (some [])
  let builder := builder.text "delete-modal-confirm-text" (TextArg.str "确认删除") Option.none
  let builder := builder.button "delete-modal-confirm" "delete-modal-confirm-text" "delete_ticket"
    (some [⟨"id", Value.literalString ticket_id⟩])
  let builder := builder.row "delete-modal-actions" ["delete-modal-cancel", "delete-modal-confirm"] Option.none (some "end")
  let builder := builder.column "delete-modal-content" ["delete-modal-title", "delete-modal-desc", "delete-modal-actions"]
    Option.none Option.none
  return (builder, "detail-page", [])

/-- Python `x or y` for an optional string field read with .get: the
fallback y is also taken when the stored string is empty. -/
def strOrD (v : Option String) (d : String) : String :=
  match v with
  | some s => if s ≠ "" then s else d
  | Option.none => d

/-- f-string fixed-point formatting f"\x7bnum / den:.1f\x7d" for a
Nat quotient whose value is exactly representable in binary floating
point (den is a power of two), using round-half-even as the float
formatting does. -/
def formatFixed1 (num den : Nat) : String :=
  let t := num * 10
  let q := t / den
  let r := t % den
  let q := if den < 2 * r then q + 1
    else if 2 * r < den then q
    else if q % 2 = 0 then q else q + 1
  toString (q / 10) ++ "." ++ toString (q % 10)

/-- The attachment size formatting of build_ticket_detail_data:
bytes below 1024 render as "n B", below 1024*1024 as tenths of KB,
otherwise as tenths of MB. -/
def sizeFormatted (size_bytes : Nat) : String :=
  if size_bytes < 1024 then toString size_bytes ++ " B"
  else if size_bytes < 1024 * 1024 then formatFixed1 size_bytes 1024 ++ " KB"
  else formatFixed1 size_bytes (1024 * 1024) ++ " MB"

/-- The attachments loop of build_ticket_detail_data. -/
def attachEntries (i : Nat) : List AttachmentD → List Entry
  | [] => []
  | att :: rest =>
      value_map ("att" ++ toString i) (build_value_map_from_dict
        [("id", PyVal.str att.id),
         ("filename", PyVal.str att.filename),
         ("sizeFormatted", PyVal.str (sizeFormatted att.size_bytes))])
        :: attachEntries (i + 1) rest

/-- The change_type_labels dict of build_ticket_detail_data, as a total
lookup with the .get default applied. -/
def changeTypeLabel (ct : String) : String :=
  if ct = "status" then "状态变更"
  else if ct = "priority" then "优先级变更"
  else if ct = "resolution" then "处理结果"
  else if ct = "tag_added" then "添加标签"
  else if ct = "tag_removed" then "移除标签"
  else ct

/-- The history loop of build_ticket_detail_data. -/
def historyEntries (i : Nat) : List HistoryD → List Entry
  | [] => []
  | h :: rest =>
      value_map ("h" ++ toString i) (build_value_map_from_dict
        [("changeTypeLabel", PyVal.str (changeTypeLabel h.change_type)),
         ("old_value", PyVal.str (strOrD h.old_value "-")),
         ("new_value", PyVal.str (strOrD h.new_value "-")),
         ("created_at", PyVal.str (strReplace (strTake h.created_at 19) "T" " "))])
        :: historyEntries (i + 1) rest

/-- build_ticket_detail_data(ticket, attachments, history) from
pages/tickets.py; the enum constructors on the status and priority
strings may raise. -/
def build_ticket_detail_data (ticket : TicketD) (attachments : List AttachmentD)
    (history : List HistoryD) : Except String (List Msg) := do
  let builder := A2UIBuilder.init "main"
  let st ← ticketStatusOfString ticket.status
  let pr ← priorityOfString ticket.priority
  let detail_data := build_value_map_from_dict
    [("id", PyVal.str ticket.id),
     ("title", PyVal.str ticket.title),
     ("description", PyVal.str (strOrD ticket.description "无描述")),
     ("status", PyVal.str ticket.status),
     ("statusLabel", PyVal.str (STATUS_LABELS st)),
     ("priority", PyVal.str ticket.priority),
     ("priorityLabel", PyVal.str (PRIORITY_LABELS pr)),
     ("resolution", PyVal.str (strOrD ticket.resolution "")),
     ("created_at", PyVal.str (strReplace (strTake ticket.created_at 19) "T" " ")),
     ("updated_at", PyVal.str (strReplace (strTake ticket.updated_at 19) "T" " "))]
  let msg1 := builder.build_data_model_update "/app/ticket/detail" detail_data
  let msg2 := builder.build_data_model_update "/app/ticket/tags" (tagEntries 0 ticket.tags)
  let msg3 := builder.build_data_model_update "/app/ticket/attachments" (attachEntries 0 attachments)
  let msg4 := builder.build_data_model_update "/app/ticket/history" (historyEntries 0 history)
  return [msg1, msg2, msg3, msg4]

/-- build_ticket_create_page(builder) from pages/tickets.py: note the
single parameter (its call site in main.py passes the builder and the
fetched tag list). -/
def build_ticket_create_page (builder : A2UIBuilder) : A2UIBuilder × String × List String :=
  let builder := builder.text "create-back-text" (TextArg.str "← 返回列表") Option.none
  let builder := builder.button "create-back-btn" "create-back-text" "navigate"
    (some [⟨"to", Value.literalString "/tickets"⟩])
  let builder := builder.text "create-title" (TextArg.str "新建票据") (some "h1")
  let builder := builder.row "create-header" ["create-back-btn", "create-title"] (some "center") Option.none
  let builder := builder.text "create-title-label" (TextArg.str "标题 *") (some "h4")
  let builder := builder.text_field "create-title-input" (TextArg.str "请输入票据标题")
    (some (TextArg.val (Value.path "/app/form/create/title"))) Option.none
  let builder := builder.text "create-desc-label" (TextArg.str "描述") (some "h4")
  let builder := builder.text_field "create-desc-input" (TextArg.str "请输入详细描述...")
    (some (TextArg.val (Value.path "/app/form/create/description"))) (some "multiline")
  let builder := builder.text "create-priority-label" (TextArg.str "优先级") (some "h4")
  let builder := builder.text "create-priority-low-text" (TextArg.str "低") Option.none
  let builder := builder.button "create-priority-low" "create-priority-low-text" "set_form_priority"
    (some [⟨"priority", Value.literalString "low"⟩])
  let builder := builder.text "create-priority-medium-text" (TextArg.str "中") Option.none
  let builder := builder.button "create-priority-medium" "create-priority-medium-text" "set_form_priority"
    (some [⟨"priority", Value.literalString "medium"⟩])
  let builder := builder.text "create-priority-high-text" (TextArg.str "高") Option.none
  let builder := builder.button "create-priority-high" "create-priority-high-text" "set_form_priority"
    (some [⟨"priority", Value.literalString "high"⟩])
  let builder := builder.text "create-priority-urgent-text" (TextArg.str "紧急") Option.none
  let builder := builder.button "create-priority-urgent" "create-priority-urgent-text" "set_form_priority"
    (some [⟨"priority", Value.literalString "urgent"⟩])
  let builder := builder.row "create-priority-btns"
    ["create-priority-low", "create-priority-medium", "create-priority-high", "create-priority-urgent"]
    (some "center") Option.none
  let builder := builder.column "create-form-fields"
    ["create-title-label", "create-title-input", "create-desc-label", "create-desc-input",
     "create-priority-label", "create-priority-btns"] Option.none Option.none
  let builder := builder.divider "create-divider"
  let builder := builder.text "create-cancel-text" (TextArg.str "取消") Option.none
  let builder := builder.button "create-cancel-btn" "create-cancel-text" "navigate"
    (some [⟨"to", Value.literalString "/tickets"⟩])
  let builder := builder.text "create-submit-text" (TextArg.str "创建票据") Option.none
  let builder := builder.button "create-submit-btn" "create-submit-text" "create_ticket"
    (some [⟨"form", Value.path "/app/form/create"⟩])
  let builder := builder.row "create-actions" ["create-cancel-btn", "create-submit-btn"] (some "center") (some "end")
  let builder := builder.column "create-form" ["create-form-fields", "create-divider", "create-actions"] Option.none Option.none
  let builder := builder.card "create-form-card" "create-form"
  let builder := builder.column "create-page" ["create-header", "create-form-card"] Option.none Option.none
  (builder, "create-page", [])

/-- build_ticket_create_data() from pages/tickets.py: note that it takes
no parameter (its call site in main.py passes the fetched tag list). -/
def build_ticket_create_data : List Msg :=
  let builder := A2UIBuilder.init "main"
  let form_data :=
    [value_string "title" "", value_string "description" "", value_string "priority" "medium"]
  [builder.build_data_model_update "/app/form/create" form_data]

/-- build_ticket_edit_page(builder, ticket) from pages/tickets.py. -/
def build_ticket_edit_page (builder : A2UIBuilder) (ticket : TicketD) :
    A2UIBuilder × String × List String :=
  let ticket_id := ticket.id
  let builder := builder.text "edit-back-text" (TextArg.str "← 返回详情") Option.none
  let builder := builder.button "edit-back-btn" "edit-back-text" "navigate"
    (some [⟨"to", Value.literalString ("/tickets/" ++ ticket_id)⟩])
  let builder := builder.text "edit-title" (TextArg.str "编辑票据") (some "h1")
  let builder := builder.row "edit-header" ["edit-back-btn", "edit-title"] (some "center") Option.none
  let builder := builder.text "edit-title-label" (TextArg.str "标题 *") (some "h4")
  let builder := builder.text_field "edit-title-input" (TextArg.str "请输入票据标题")
    (some (TextArg.val (Value.path "/app/form/edit/title"))) Option.none
  let builder := builder.text "edit-desc-label" (TextArg.str "描述") (some "h4")
  let builder := builder.text_field "edit-desc-input" (TextArg.str "请输入详细描述...")
    (some (TextArg.val (Value.path "/app/form/edit/description"))) (some "multiline")
  let builder := builder.text "edit-priority-label" (TextArg.str "优先级") (some "h4")
  let builder := builder.text "edit-priority-low-text" (TextArg.str "低") Option.none
  let builder := builder.button "edit-priority-low" "edit-priority-low-text" "set_form_priority"
    (some [⟨"priority", Value.literalString "low"⟩])
  let builder := builder.text "edit-priority-medium-text" (TextArg.str "中") Option.none
  let builder := builder.button "edit-priority-medium" "edit-priority-medium-text" "set_form_priority"
    (some [⟨"priority", Value.literalString "medium"⟩])
  let builder := builder.text "edit-priority-high-text" (TextArg.str "高") Option.none
  let builder := builder.button "edit-priority-high" "edit-priority-high-text" "set_form_priority"
    (some [⟨"priority", Value.literalString "high"⟩])
  let builder := builder.text "edit-priority-urgent-text" (TextArg.str "紧急") Option.none
  let builder := builder.button "edit-priority-urgent" "edit-priority-urgent-text" "set_form_priority"
    (some [⟨"priority", Value.literalString "urgent"⟩])
  let builder := builder.row "edit-priority-btns"
    ["edit-priority-low", "edit-priority-medium", "edit-priority-high", "edit-priority-urgent"]
    (some "center") Option.none
  let builder := builder.column "edit-form-fields"
    ["edit-title-label", "edit-title-input", "edit-desc-label", "edit-desc-input",
     "edit-priority-label", "edit-priority-btns"] Option.none Option.none
  let builder := builder.divider "edit-divider"
  let builder := builder.text "edit-cancel-text" (TextArg.str "取消") Option.none
  let builder := builder.button "edit-cancel-btn" "edit-cancel-text" "navigate"
    (some [⟨"to", Value.literalString ("/tickets/" ++ ticket_id)⟩])
  let builder := builder.text "edit-submit-text" (TextArg.str "保存更改") Option.none
  let builder := builder.button "edit-submit-btn" "edit-submit-text" "update_ticket"
    (some [⟨"id", Value.literalString ticket_id⟩, ⟨"form", Value.path "/app/form/edit"⟩])
  let builder := builder.row "edit-actions" ["edit-cancel-btn", "edit-submit-btn"] (some "center") (some "end")
  let builder := builder.column "edit-form" ["edit-form-fields", "edit-divider", "edit-actions"] Option.none Option.none
  let builder := builder.card "edit-form-card" "edit-form"
  let builder := builder.column "edit-page" ["edit-header", "edit-form-card"] Option.none Option.none
  (builder, "edit-page", [])

/-- build_ticket_edit_data(ticket) from pages/tickets.py. -/
def build_ticket_edit_data (ticket : TicketD) : List Msg :=
  let builder := A2UIBuilder.init "main"
  let form_data :=
    [value_string "title" ticket.title,
     value_string "description" (strOrD ticket.description ""),
     value_string "priority" ticket.priority]
  [builder.build_data_model_update "/app/form/edit" form_data]

-- main.py

/-- Model of int(s) on a string: optional surrounding whitespace, an
optional sign, then decimal digits (digit-group underscores do not occur
in the inputs of this server). -/
def pyIntOfString (s : String) : Option Int :=
  let t := strStrip s
  let sign : Int := if strStartsWith t "-" then -1 else 1
  let digits := if strStartsWith t "-" ∨ strStartsWith t "+" then strDrop t 1 else t
  if digits ≠ "" ∧ digits.data.all Char.isDigit then
    some (sign * ((digits.data.foldl (fun acc c => acc * 10 + (c.toNat - 48)) 0 : Nat) : Int))
  else Option.none

/-- safe_int(value, default=1) from main.py: None gives the default;
int(value) is returned when the conversion succeeds, the default when it
raises ValueError or TypeError (a bool converts as 1 or 0). -/
def safe_int (value : Option PyVal) (default : Int) : Int :=
  match value with
  | Option.none => default
  | some (PyVal.int n) => n
  | some (PyVal.bool b) => if b then 1 else 0
  | some (PyVal.str s) => (pyIntOfString s).getD default
  | some PyVal.none => default
  | some _ => default

/-- The Python type name of a PyVal, as it appears in AttributeError
messages. -/
def pyTypeName : PyVal → String
  | PyVal.str _ => "str"
  | PyVal.bool _ => "bool"
  | PyVal.int _ => "int"
  | PyVal.dict _ => "dict"
  | PyVal.list _ => "list"
  | PyVal.none => "NoneType"
  | PyVal.other _ => "object"

/-- A .get call on a value expected to be a dict: anything else raises
AttributeError. -/
def asDictAttr (v : PyVal) : Except String (List (String × PyVal)) :=
  match v with
  | PyVal.dict d => Except.ok d
  | v => Except.error (sq ++ pyTypeName v ++ sq ++ " object has no attribute " ++ sq ++ "get" ++ sq)

/-- Python `x or d`: d when x is falsy. -/
def pyOr (v : Option PyVal) (d : PyVal) : PyVal :=
  match v with
  | some x => if pyTruthy x then x else d
  | Option.none => d

/-- The backend collaborator reached through api_client: one pure
function per REST helper; Except.error e models a raised exception whose
str() is e (api_client raises on HTTP error statuses). -/
structure Backend where
  list_tickets : Option String → Option String → Option String → Int → Except String TicketsResponse
  get_ticket : String → Except String TicketD
  get_ticket_attachments : String → Except String (List AttachmentD)
  get_ticket_history : String → Except String HistoryResponse
  list_tags : Unit → Except String (List TagD)
  create_ticket : List (String × PyVal) → Except String TicketD
  update_ticket : String → List (String × PyVal) → Except String Unit
  delete_ticket : String → Except String Unit
  update_ticket_status : String → List (String × PyVal) → Except String Unit
  create_tag : List (String × PyVal) → Except String Unit
  delete_tag : String → Except String Unit

/-- The except-branch of generate_page_messages (main.py lines 139-146):
reset the builder, build the error page and the app layout around it,
then yield one surfaceUpdate and one beginRendering rooted at
"app-layout". -/
def error_page_messages (builder : A2UIBuilder) (e : String) : List Msg :=
  let builder := builder.reset
  let r := build_error_page builder e
  let builder := build_app_layout r.1 r.2.1 ""
  [builder.build_surface_update, builder.build_begin_rendering "app-layout"]

/-- str(e) of the TypeError raised by the five-argument call
build_tickets_data(tickets_data, search, status, priority, page) in
main.py line 77, against the one-parameter definition in
pages/tickets.py. -/
def build_tickets_data_arity_message : String :=
  "build_tickets_data() takes 1 positional argument but 5 were given"

/-- str(e) of the TypeError raised by the two-argument call
build_ticket_create_page(builder, tags) in main.py line 84, against the
one-parameter definition in pages/tickets.py. -/
def build_ticket_create_page_arity_message : String :=
  "build_ticket_create_page() takes 1 positional argument but 2 were given"

/-- generate_page_messages(path, query_params) from main.py, as the list
of messages the async generator yields, in order.

Two call sites in the routing body raise TypeError because they pass more
positional arguments than the page-data functions accept:
the tickets list branch first yields its surfaceUpdate and then evaluates
build_tickets_data(tickets_data, search, status, priority, page), and the
create branch evaluates build_ticket_create_page(builder, tags) before
its first yield (so build_ticket_create_data(tags), which would also be
an arity error, is never reached). Both exceptions are caught by the
surrounding except branch, which resets the builder and emits the error
page. -/
def generate_page_messages (backend : Backend) (path : String)
    (query_params : List (String × String)) : List Msg :=
  let builder := A2UIBuilder.init "main"
  if path = "/" ∨ path = "/tickets" then
    let search := dictGetD query_params "search" ""
    let status := dictGetD query_params "status" ""
    let priority := dictGetD query_params "priority" ""
    let page := safe_int ((dictGet query_params "page").map PyVal.str) 1
    match backend.list_tickets
      (if search ≠ "" then some search else Option.none)
      (if status ≠ "" then some status else Option.none)
      (if priority ≠ "" then some priority else Option.none)
      page with
    | Except.error e => error_page_messages builder e
    | Except.ok tickets_data =>
        let _ := tickets_data
        let r := build_tickets_page builder
        let builder := build_app_layout r.1 r.2.1 "tickets"
        builder.build_surface_update
          :: error_page_messages builder build_tickets_data_arity_message
  else if path = "/tickets/new" then
    match backend.list_tags () with
    | Except.error e => error_page_messages builder e
    | Except.ok tags =>
        let _ := tags
        error_page_messages builder build_ticket_create_page_arity_message
  else if strStartsWith path "/tickets/" ∧ strEndsWith path "/edit" then
    let ticket_id := (strSplitOn path "/").getD 2 ""
    match backend.get_ticket ticket_id with
    | Except.error e => error_page_messages builder e
    | Except.ok ticket =>
        let r := build_ticket_edit_page builder ticket
        let builder := build_app_layout r.1 r.2.1 "tickets"
        builder.build_surface_update
          :: (build_ticket_edit_data ticket ++ [builder.build_begin_rendering "app-layout"])
  else if strStartsWith path "/tickets/" then
    let ticket_id := (strSplitOn path "/").getD 2 ""
    match backend.get_ticket ticket_id with
    | Except.error e => error_page_messages builder e
    | Except.ok ticket =>
      match backend.get_ticket_attachments ticket_id with
      | Except.error e => error_page_messages builder e
      | Except.ok attachments =>
        match backend.get_ticket_history ticket_id with
        | Except.error e => error_page_messages builder e
        | Except.ok history_response =>
          let history := history_response.data.getD []
          match build_ticket_detail_page builder ticket with
          | Except.error e => error_page_messages builder e
          | Except.ok r =>
            let builder := build_app_layout r.1 r.2.1 "tickets"
            match build_ticket_detail_data ticket attachments history with
            | Except.error e =>
                builder.build_surface_update :: error_page_messages builder e
            | Except.ok dataMsgs =>
                builder.build_surface_update
                  :: (dataMsgs ++ [builder.build_begin_rendering "app-layout"])
  else if path = "/tags" then
    match backend.list_tags () with
    | Except.error e => error_page_messages builder e
    | Except.ok tags =>
        let r := build_tags_page builder
        let builder := build_app_layout r.1 r.2.1 "tags"
        builder.build_surface_update
          :: (build_tags_data tags ++ [builder.build_begin_rendering "app-layout"])
  else
    let r := build_not_found_page builder
    let builder := build_app_layout r.1 r.2.1 ""
    [builder.build_surface_update, builder.build_begin_rendering "app-layout"]

-- stream_ui : path and query resolution (main.py lines 155-171)

/-- The params split of urlparse: only the last path segment is searched
for ";", and everything from it on is moved out of the path. -/
def stripParams (p : String) : String :=
  let segs := strSplitOn p "/"
  String.intercalate "/" (segs.dropLast ++ [(splitFirst (segs.getLast?.getD "") ";").1])

/-- Model of urllib.parse.urlparse restricted to the path and query of a
relative reference without scheme or netloc (the form the client sends,
e.g. "/tickets?page=2"): the fragment is split off at the first "#",
then the query at the first "?", then params at the ";" of the last path
segment. -/
def urlparse_path_query (url : String) : String × String :=
  let r1 := splitFirst url "#"
  let r2 := splitFirst r1.1 "?"
  (stripParams r2.1, r2.2.getD "")

/-- Model of urllib.parse.parse_qsl with the default arguments: split the
query string on "&"; a field without "=" or with an empty value is
dropped (keep_blank_values is false); percent/plus decoding is the
identity on the unencoded values used here. -/
def parse_qsl (qs : String) : List (String × String) :=
  (strSplitOn qs "&").filterMap fun pair =>
    if pair = "" then Option.none
    else match splitFirst pair "=" with
      | (_, Option.none) => Option.none
      | (name, some value) =>
          if value = "" then Option.none else some (name, value)

/-- Append a value under a key in a dict of lists (parse_qs grouping). -/
def dictAppend (d : List (String × List String)) (k v : String) :
    List (String × List String) :=
  if d.any (fun p => p.1 == k) then
    d.map (fun p => if p.1 == k then (p.1, p.2 ++ [v]) else p)
  else
    d ++ [(k, [v])]

/-- Model of urllib.parse.parse_qs: group the parse_qsl pairs into an
ordered dict of value lists. -/
def parse_qs (qs : String) : List (String × List String) :=
  (parse_qsl qs).foldl (fun d kv => dictAppend d kv.1 kv.2) []

/-- The body of the merge loop of stream_ui: a path-embedded key with a
non-empty value list overwrites (or adds) the entry under its first
value. -/
def mergeStep (acc : List (String × String)) (kv : String × List String) :
    List (String × String) :=
  match kv.2 with
  | [] => acc
  | v :: _ => dictSet acc kv.1 v

/-- The path/query resolution of stream_ui (main.py lines 155-171):
parse the path parameter into its path component and embedded query;
drop the "path" key from the outer request parameters; merge, giving the
first value of each path-embedded key precedence over the outer request
value. Returns the effective routing path and the merged parameters. -/
def stream_ui_resolve (request_params : List (String × String)) (path : String) :
    String × List (String × String) :=
  let parsed := urlparse_path_query path
  let actual_path := parsed.1
  let path_query_params := parse_qs parsed.2
  let request_params := request_params.filter (fun p => p.1 ≠ "path")
  let query_params := path_query_params.foldl mergeStep request_params
  (actual_path, query_params)

/-- stream_ui(request, path): the messages streamed for one request, with
the client never disconnecting. -/
def stream_ui (backend : Backend) (request_params : List (String × String))
    (path : String) : List Msg :=
  let r := stream_ui_resolve request_params path
  generate_page_messages backend r.1 r.2

-- main.py : actions

/-- UserAction (models.py): name, surfaceId, sourceComponentId,
timestamp, context. -/
structure UserAction where
  name : String
  surfaceId : String
  sourceComponentId : String
  timestamp : String
  context : List (String × PyVal)

/-- Python `sub in s` on strings. -/
def strContains (s sub : String) : Bool :=
  decide (sub.data <:+: s.data)

/-- The four query-state actions handled by one branch of
process_action. -/
def queryActions : List String :=
  ["search_tickets", "filter_status", "filter_priority", "paginate"]

/-- The client-side actions answered with handled: true. -/
def clientSideActions : List String :=
  ["show_create_tag_form", "hide_create_tag_form", "set_tag_color",
   "set_form_priority", "toggle_form_tag", "toggle_multi_select"]

/-- The dialog actions answered with handled: true. -/
def dialogActions : List String :=
  ["show_delete_dialog", "dismiss_dialog"]

/-- The `if status is None: status = ""` normalization of the filter
branches. -/
def noneToEmpty (v : Option PyVal) : PyVal :=
  match v with
  | some PyVal.none => PyVal.str ""
  | some v => v
  | Option.none => PyVal.str ""

/-- process_action(action) from main.py: the directive dict for the
action, or the raised exception. -/
def process_action (backend : Backend) (action : UserAction) : Except String PyVal :=
  let name := action.name
  let context := action.context
  if name = "navigate" then
    Except.ok (PyVal.dict [("navigate", dictGetD context "to" (PyVal.str "/tickets"))])
  else if name ∈ queryActions then
    let current_search := pyOr (dictGet context "current_search") (PyVal.str "")
    let current_status := pyOr (dictGet context "current_status") (PyVal.str "")
    let current_priority := pyOr (dictGet context "current_priority") (PyVal.str "")
    let current_page := safe_int (dictGet context "current_page") 1
    let new_search := if name = "search_tickets"
      then pyOr (dictGet context "search") (PyVal.str "") else current_search
    let new_status := if name = "filter_status"
      then noneToEmpty (dictGet context "status") else current_status
    let new_priority := if name = "filter_priority"
      then noneToEmpty (dictGet context "priority") else current_priority
    let new_page : Int :=
      if name = "search_tickets" ∨ name = "filter_status" ∨ name = "filter_priority" then 1
      else if name = "paginate" then safe_int (dictGet context "page") 1
      else current_page
    let query_parts : List String :=
      (if pyTruthy new_search then ["search=" ++ pyStr new_search] else [])
      ++ (if pyTruthy new_status then ["status=" ++ pyStr new_status] else [])
      ++ (if pyTruthy new_priority then ["priority=" ++ pyStr new_priority] else [])
      ++ (if 1 < new_page then ["page=" ++ toString new_page] else [])
    let query_string := if query_parts.isEmpty then "" else "?" ++ String.intercalate "&" query_parts
    Except.ok (PyVal.dict [("navigate", PyVal.str ("/tickets" ++ query_string))])
  else if name = "view_ticket" then
    let ticket_id := (dictGet context "id").getD PyVal.none
    Except.ok (PyVal.dict [("navigate", PyVal.str ("/tickets/" ++ pyStr ticket_id))])
  else if name = "create_ticket" then do
    let form ← asDictAttr (dictGetD context "form" (PyVal.dict []))
    let ticket ← backend.create_ticket
      [("title", dictGetD form "title" PyVal.none),
       ("description", dictGetD form "description" PyVal.none),
       ("priority", dictGetD form "priority" (PyVal.str "medium"))]
    let ticket_id := ticket.id
    let selected_tag_ids := dictGetD form "selectedTagIds" (PyVal.str "")
    if pyTruthy selected_tag_ids then
      match selected_tag_ids with
      | PyVal.str _ =>
          -- every api_client.add_tag_to_ticket(ticket_id, tag_id) call of
          -- the loop raises AttributeError (ApiClient defines no such
          -- method), and the inner try/except swallows it, so the loop
          -- has no backend effect
          Except.ok (PyVal.dict [("navigate", PyVal.str ("/tickets/" ++ ticket_id))])
      | v => Except.error (sq ++ pyTypeName v ++ sq ++ " object has no attribute " ++ sq ++ "split" ++ sq)
    else
      Except.ok (PyVal.dict [("navigate", PyVal.str ("/tickets/" ++ ticket_id))])
  else if name = "update_ticket" then do
    let ticket_id := (dictGet context "id").getD PyVal.none
    let form ← asDictAttr (dictGetD context "form" (PyVal.dict []))
    let _ ← backend.update_ticket (pyStr ticket_id)
      [("title", dictGetD form "title" PyVal.none),
       ("description", dictGetD form "description" PyVal.none),
       ("priority", dictGetD form "priority" PyVal.none)]
    Except.ok (PyVal.dict [("navigate", PyVal.str ("/tickets/" ++ pyStr ticket_id))])
  else if name = "delete_ticket" then do
    let ticket_id := (dictGet context "id").getD PyVal.none
    let _ ← backend.delete_ticket (pyStr ticket_id)
    Except.ok (PyVal.dict [("navigate", PyVal.str "/tickets")])
  else if name = "change_status" then do
    let ticket_id := (dictGet context "id").getD PyVal.none
    let status := (dictGet context "status").getD PyVal.none
    let resolution := (dictGet context "resolution").getD PyVal.none
    let _ ← backend.update_ticket_status (pyStr ticket_id)
      [("status", status), ("resolution", resolution)]
    Except.ok (PyVal.dict [("navigate", PyVal.str ("/tickets/" ++ pyStr ticket_id))])
  else if name = "create_tag" then do
    let form ← asDictAttr (dictGetD context "form" (PyVal.dict []))
    let _ ← backend.create_tag
      [("name", dictGetD form "name" PyVal.none),
       ("color", dictGetD form "color" (PyVal.str "#3B82F6"))]
    Except.ok (PyVal.dict [("navigate", PyVal.str "/tags")])
  else if name = "delete_tag" then do
    let tag_id := (dictGet context "id").getD PyVal.none
    let _ ← backend.delete_tag (pyStr tag_id)
    Except.ok (PyVal.dict [("navigate", PyVal.str "/tags")])
  else if name ∈ clientSideActions then
    Except.ok (PyVal.dict [("handled", PyVal.bool true)])
  else if name ∈ dialogActions then
    Except.ok (PyVal.dict [("handled", PyVal.bool true)])
  else if name = "retry" then
    Except.ok (PyVal.dict [("refresh", PyVal.bool true)])
  else
    Except.ok (PyVal.dict [("unknown", PyVal.bool true)])

/-- handle_action(action) from main.py: the JSON response dict. A raised
exception is classified by substring inspection of its str() into a
localized message and returned as success: false. -/
def handle_action (backend : Backend) (action : UserAction) : PyVal :=
  match process_action backend action with
  | Except.ok result =>
      PyVal.dict [("success", PyVal.bool true), ("result", result)]
  | Except.error e =>
      let error_message :=
        if strContains e "409" || strContains e "Conflict" then
          "操作失败：该名称已存在，请使用其他名称"
        else if strContains e "400" || strContains e "Bad Request" then
          "操作失败：请检查输入内容"
        else if strContains e "404" || strContains e "Not Found" then
          "操作失败：资源未找到"
        else "操作失败：" ++ e
      PyVal.dict [("success", PyVal.bool false), ("error", PyVal.str error_message)]

-- Auxiliary observation functions and concrete fixtures used by the
-- theorems below.

/-- The key of a data-model entry. -/
def Entry.key : Entry → String
  | Entry.valueString k _ => k
  | Entry.valueNumber k _ => k
  | Entry.valueBoolean k _ => k
  | Entry.valueMap k _ => k

/-- Whether a value falls outside the types handled by
build_value_map_from_dict. -/
def isUnhandledType : PyVal → Bool
  | PyVal.other _ => true
  | _ => false

/-- A backend fixture whose every call raises. -/
def errorBackend : Backend where
  list_tickets _ _ _ _ := Except.error "unreachable backend"
  get_ticket _ := Except.error "unreachable backend"
  get_ticket_attachments _ := Except.error "unreachable backend"
  get_ticket_history _ := Except.error "unreachable backend"
  list_tags _ := Except.error "unreachable backend"
  create_ticket _ := Except.error "unreachable backend"
  update_ticket _ _ := Except.error "unreachable backend"
  delete_ticket _ := Except.error "unreachable backend"
  update_ticket_status _ _ := Except.error "unreachable backend"
  create_tag _ := Except.error "unreachable backend"
  delete_tag _ := Except.error "unreachable backend"

/-- A concrete well-formed ticket. -/
def ticketAbc : TicketD where
  id := "abc"
  title := "T"
  description := Option.none
  status := "open"
  priority := "low"
  resolution := Option.none
  created_at := "2024-01-01T00:00:00"
  updated_at := "2024-01-01T00:00:00"
  tags := []

/-- A backend for the detail route on which the ticket fetch succeeds and
the attachments fetch raises. -/
def attachmentsFailBackend : Backend :=
  { errorBackend with
      get_ticket := fun _ => Except.ok ticketAbc,
      get_ticket_attachments := fun _ => Except.error "boom" }

/-- A backend whose delete_tag raises with a message containing 404. -/
def deleteTag404Backend : Backend :=
  { errorBackend with delete_tag := fun _ => Except.error "404 Not Found for url" }

/-- A backend whose tickets list fetch succeeds with an empty first
page. -/
def listOkBackend : Backend :=
  { errorBackend with
      list_tickets := fun _ _ _ _ =>
        Except.ok { data := some [], page := some 1, total_pages := some 1 },
      list_tags := fun _ => Except.ok [] }

/-- The delete_tag action with a string id. -/
def deleteTagAction : UserAction where
  name := "delete_tag"
  surfaceId := "main"
  sourceComponentId := "tag-del"
  timestamp := "2024-01-01T00:00:00"
  context := [("id", PyVal.str "t1")]

/-- The filter_status action of the dispatch example: status open, a
current search of x, current page 3. -/
def filterStatusAction : UserAction where
  name := "filter_status"
  surfaceId := "main"
  sourceComponentId := "filter-open"
  timestamp := "2024-01-01T00:00:00"
  context := [("status", PyVal.str "open"), ("current_search", PyVal.str "x"),
              ("current_page", PyVal.int 3)]

/-- An action whose name no dispatch branch knows. -/
def bogusAction : UserAction where
  name := "definitely_not_an_action"
  surfaceId := "main"
  sourceComponentId := "x"
  timestamp := "2024-01-01T00:00:00"
  context := [("anything", PyVal.int 7)]

/-- Every action name matched by some branch of process_action. -/
def knownActionNames : List String :=
  ["navigate"] ++ queryActions
    ++ ["view_ticket", "create_ticket", "update_ticket", "delete_ticket",
        "change_status", "create_tag", "delete_tag"]
    ++ clientSideActions ++ dialogActions ++ ["retry"]

/-- The component list the error branch of generate_page_messages
accumulates: the error page components followed by the app layout
components. -/
def error_page_components (e : String) : List Component :=
  (build_app_layout (build_error_page ((A2UIBuilder.init "main").reset) e).1
    (build_error_page ((A2UIBuilder.init "main").reset) e).2.1 "").components

-- Helper lemmas and claim theorems

/-- Unfolding of build_value_map_from_dict on a cons cell. -/
theorem build_value_map_from_dict_cons (p : String × PyVal) (rest : List (String × PyVal)) :
    build_value_map_from_dict (p :: rest)
      = convertEntry p.1 p.2 ++ build_value_map_from_dict rest := rfl

/-- The key produced for the j-th element of a list converted by
build_value_map_from_dict, starting at index i, is item(i+j). -/
theorem listEntries_keys : ∀ (xs : List PyVal) (i : Nat),
    (listEntries i xs).map Entry.key
      = (List.range xs.length).map (fun j => "item" ++ toString (i + j)) := by
  intro xs
  induction xs with
  | nil => intro i; rfl
  | cons x rest ih =>
      intro i
      have hkey : (listEntries i (x :: rest)).map Entry.key
          = ("item" ++ toString i) :: (listEntries (i + 1) rest).map Entry.key := by
        cases x <;> rfl
      rw [hkey, ih (i + 1), List.length_cons, List.range_succ_eq_map, List.map_cons, List.map_map]
      refine congrArg₂ List.cons (by simp) (List.map_congr_left ?_)
      intro a _
      have h : i + 1 + a = i + (a + 1) := by omega
      simp [Function.comp, h, Nat.succ_eq_add_one]

/-- Claim C3: build_value_map_from_dict on the dict of a mapped to 1, b
mapped to True, c mapped to "x" classifies b as boolean (the boolean
check precedes the numeric one) and returns the three entries in
insertion order; in general strings map to valueString, booleans to
valueBoolean, ints to valueNumber, dicts to nested valueMap, lists to
valueMap with synthetic keys item0, item1, ..., and None to an empty
valueString. -/
theorem build_value_map_from_dict_classification :
    build_value_map_from_dict [("a", PyVal.int 1), ("b", PyVal.bool true), ("c", PyVal.str "x")]
        = [Entry.valueNumber "a" 1, Entry.valueBoolean "b" true, Entry.valueString "c" "x"]
      ∧ (∀ k s, convertEntry k (PyVal.str s) = [Entry.valueString k s])
      ∧ (∀ k b, convertEntry k (PyVal.bool b) = [Entry.valueBoolean k b])
      ∧ (∀ k n, convertEntry k (PyVal.int n) = [Entry.valueNumber k n])
      ∧ (∀ k d, convertEntry k (PyVal.dict d) = [Entry.valueMap k (build_value_map_from_dict d)])
      ∧ (∀ k xs, convertEntry k (PyVal.list xs) = [Entry.valueMap k (listEntries 0 xs)])
      ∧ (∀ k, convertEntry k PyVal.none = [Entry.valueString k ""])
      ∧ (∀ xs i, (listEntries i xs).map Entry.key
          = (List.range xs.length).map (fun j => "item" ++ toString (i + j))) :=
  ⟨rfl, fun _ _ => rfl, fun _ _ => rfl, fun _ _ => rfl, fun _ _ => rfl,
   fun _ _ => rfl, fun _ => rfl, listEntries_keys⟩

/-- Claim C9: reset() empties the accumulated component list and data
updates while keeping surface_id, so a build_surface_update issued right
after reset() is a surfaceUpdate with the same surfaceId and an empty
components list. -/
theorem reset_clears_components_keeps_surface :
    ∀ b : A2UIBuilder,
      b.reset.surface_id = b.surface_id
      ∧ b.reset.components = []
      ∧ b.reset.data_updates = []
      ∧ b.reset.build_surface_update = Msg.surfaceUpdate b.surface_id [] :=
  fun _ => ⟨rfl, rfl, rfl, rfl⟩

/-- The conversion of a single dict item yields at most one entry. -/
theorem convertEntry_length_le (k : String) (v : PyVal) :
    (convertEntry k v).length ≤ 1 := by
  cases v <;> simp [convertEntry]

/-- Claim C10: build_value_map_from_dict is total in this model, its
value is unchanged when the keys holding values of unhandled types are
removed (such keys are silently dropped), a value of an unhandled type
yields no entry, and the output can therefore be shorter than the input
dict. -/
theorem build_value_map_from_dict_drops_unhandled :
    (∀ d : List (String × PyVal),
        build_value_map_from_dict d
            = build_value_map_from_dict (d.filter (fun p => !isUnhandledType p.2))
          ∧ (build_value_map_from_dict d).length ≤ d.length)
      ∧ (∀ k r, convertEntry k (PyVal.other r) = [])
      ∧ build_value_map_from_dict [("a", PyVal.int 1), ("weird", PyVal.other "(1, 2)")]
          = [Entry.valueNumber "a" 1] := by
  refine ⟨?_, fun _ _ => rfl, rfl⟩
  intro d
  induction d with
  | nil => exact ⟨rfl, Nat.le_refl 0⟩
  | cons p rest ih =>
      constructor
      · rw [build_value_map_from_dict_cons, List.filter_cons]
        by_cases hu : isUnhandledType p.2 = true
        · rw [if_neg (by simp [hu])]
          have hconv : convertEntry p.1 p.2 = [] := by
            obtain ⟨k0, v0⟩ := p
            cases v0 <;> first | rfl | simp [isUnhandledType] at hu
          rw [hconv, List.nil_append, ih.1]
        · rw [if_pos (by simp at hu ⊢; exact hu)]
          rw [build_value_map_from_dict_cons, ih.1]
      · rw [build_value_map_from_dict_cons, List.length_append, List.length_cons]
        have h1 := convertEntry_length_le p.1 p.2
        have h2 := ih.2
        omega


/-- Claim C4: whenever build_tickets_data succeeds, its last message is
the pagination dataModelUpdate with prevPage = max(1, page-1),
nextPage = min(total_pages, page+1) and the localized info string; in
particular page 3 of 5 gives 2 / 4 / "第 3 页 / 共 5 页", page 1 clamps
prevPage to 1, and page = total_pages clamps nextPage to total_pages. -/
theorem build_tickets_data_pagination :
    ∀ (resp : TicketsResponse) (msgs : List Msg),
      build_tickets_data resp = Except.ok msgs →
      msgs.getLast? = some (Msg.dataModelUpdate "main" "/app/tickets/pagination"
          [value_number "page" (resp.page.getD 1),
           value_number "totalPages" (resp.total_pages.getD 1),
           value_number "prevPage" (max 1 (resp.page.getD 1 - 1)),
           value_number "nextPage" (min (resp.total_pages.getD 1) (resp.page.getD 1 + 1)),
           value_string "info" ("第 " ++ toString (resp.page.getD 1) ++ " 页 / 共 "
             ++ toString (resp.total_pages.getD 1) ++ " 页")])
        ∧ (resp.page.getD 1 = 3 → resp.total_pages.getD 1 = 5 →
            max 1 (resp.page.getD 1 - 1) = 2
            ∧ min (resp.total_pages.getD 1) (resp.page.getD 1 + 1) = 4
            ∧ "第 " ++ toString (resp.page.getD 1) ++ " 页 / 共 "
                ++ toString (resp.total_pages.getD 1) ++ " 页" = "第 3 页 / 共 5 页")
        ∧ (resp.page.getD 1 = 1 → max 1 (resp.page.getD 1 - 1) = 1)
        ∧ (resp.page.getD 1 = resp.total_pages.getD 1 →
            min (resp.total_pages.getD 1) (resp.page.getD 1 + 1) = resp.total_pages.getD 1) := by
  intro resp msgs h
  simp only [build_tickets_data, bind, Except.bind] at h
  cases hl : ticketListEntries 0 (resp.data.getD []) with
  | error e => rw [hl] at h; cases h
  | ok list_data =>
      rw [hl] at h
      simp only [pure, Except.pure, Except.ok.injEq] at h
      subst h
      refine ⟨rfl, ?_, ?_, ?_⟩
      · intro h3 h5
        rw [h3, h5]
        refine ⟨by decide, by decide, by rfl⟩
      · intro h1
        rw [h1]
        omega
      · intro ht
        rw [ht]
        omega

/-- Claim C4 witness: the pagination message for the concrete response
page 3 of 5 with no tickets. -/
theorem build_tickets_data_pagination_witness :
    ([Msg.dataModelUpdate "main" "/app/tickets/query"
        [value_string "search" "", value_string "status" "", value_string "priority" "",
         value_number "page" 3],
      Msg.dataModelUpdate "main" "/app/tickets/list" [],
      Msg.dataModelUpdate "main" "/app/tickets/pagination"
        [value_number "page" 3, value_number "totalPages" 5, value_number "prevPage" 2,
         value_number "nextPage" 4, value_string "info" "第 3 页 / 共 5 页"]] : List Msg).getLast?
      = some (Msg.dataModelUpdate "main" "/app/tickets/pagination"
          [value_number "page" 3, value_number "totalPages" 5, value_number "prevPage" 2,
           value_number "nextPage" 4, value_string "info" "第 3 页 / 共 5 页"]) :=
  (build_tickets_data_pagination { data := some [], page := some 3, total_pages := some 5 }
    _ rfl).1

/-- Claim C5: dispatching filter_status with status open, current search
x and current page 3 navigates to /tickets?search=x&status=open: the
page is reset to 1 and omitted from the query string. -/
theorem filter_status_resets_page :
    ∀ backend : Backend,
      process_action backend filterStatusAction
        = Except.ok (PyVal.dict [("navigate", PyVal.str "/tickets?search=x&status=open")]) :=
  fun _ => rfl


/-- Claim C7: for any action name outside the known set and any context,
process_action returns the unknown: true directive and never an error. -/
theorem unknown_action_returns_unknown :
    ∀ (backend : Backend) (action : UserAction),
      action.name ∉ knownActionNames →
      process_action backend action = Except.ok (PyVal.dict [("unknown", PyVal.bool true)]) := by
  intro backend action h
  simp only [knownActionNames, queryActions, clientSideActions, dialogActions,
    List.cons_append, List.nil_append, List.mem_cons, List.not_mem_nil, or_false,
    not_or] at h
  obtain ⟨h1, h2, h3, h4, h5, h6, h7, h8, h9, h10, h11, h12, h13, h14, h15, h16,
    h17, h18, h19, h20, h21⟩ := h
  simp [process_action, queryActions, clientSideActions, dialogActions,
    h1, h2, h3, h4, h5, h6, h7, h8, h9, h10, h11, h12, h13, h14, h15, h16,
    h17, h18, h19, h20, h21]

/-- Claim C7 witness: a made-up action name yields unknown: true. -/
theorem unknown_action_returns_unknown_witness :
    process_action errorBackend bogusAction
      = Except.ok (PyVal.dict [("unknown", PyVal.bool true)]) :=
  unknown_action_returns_unknown errorBackend bogusAction (by decide)

/-- Claim C6: when process_action raises during a delete_tag dispatch
with a message containing 404 and containing none of 409, Conflict, 400,
Bad Request, handle_action returns the success: false envelope with the
localized resource-not-found message instead of propagating the error. -/
theorem delete_tag_404_envelope :
    ∀ (backend : Backend) (action : UserAction) (e : String),
      action.name = "delete_tag" →
      backend.delete_tag (pyStr ((dictGet action.context "id").getD PyVal.none))
          = Except.error e →
      strContains e "409" = false → strContains e "Conflict" = false →
      strContains e "400" = false → strContains e "Bad Request" = false →
      strContains e "404" = true →
      handle_action backend action
        = PyVal.dict [("success", PyVal.bool false),
                      ("error", PyVal.str "操作失败：资源未找到")] := by
  intro backend action e hname hdel h409 hConf h400 hBad h404
  have hp : process_action backend action = Except.error e := by
    simp only [process_action, hname]
    simp only [queryActions, clientSideActions, dialogActions, List.mem_cons,
      List.not_mem_nil, or_false, String.reduceEq, reduceIte, or_self]
    simp only [bind, Except.bind, hdel]
  rw [handle_action, hp]
  simp only [h409, hConf, h400, hBad, h404, Bool.or_self, Bool.false_or,
    Bool.or_false, if_false, if_true, Bool.false_eq_true, if_pos]
  simp

/-- Claim C6 witness: a backend whose delete_tag raises with message
"404 Not Found for url". -/
theorem delete_tag_404_envelope_witness :
    handle_action deleteTag404Backend deleteTagAction
      = PyVal.dict [("success", PyVal.bool false),
                    ("error", PyVal.str "操作失败：资源未找到")] :=
  delete_tag_404_envelope deleteTag404Backend deleteTagAction "404 Not Found for url"
    rfl rfl (by rfl) (by rfl) (by rfl) (by rfl) (by rfl)


-- Association-list lemmas for the stream_ui merge (claim C8)

/-- Unfolding of dictGet on a cons cell. -/
theorem dictGet_cons {α : Type} (p : String × α) (rest : List (String × α)) (k : String) :
    dictGet (p :: rest) k = if p.1 == k then some p.2 else dictGet rest k := by
  rw [dictGet, List.find?]
  cases h : p.1 == k <;> simp [h, dictGet]

/-- The in-place update map of dictSet leaves other keys unchanged. -/
theorem dictGet_map_set_ne {α : Type} (k k' : String) (v : α) (hne : k' ≠ k) :
    ∀ d : List (String × α),
      dictGet (d.map (fun p => if p.1 == k then (p.1, v) else p)) k' = dictGet d k' := by
  intro d
  induction d with
  | nil => rfl
  | cons p rest ih =>
      rw [List.map_cons, dictGet_cons, dictGet_cons]
      have ih2 : dictGet (List.map (fun p => if p.1 = k then (p.1, v) else p) rest) k'
          = dictGet rest k' := by simpa using ih
      by_cases hpk : (p.1 == k) = true
      · have hp1 : p.1 = k := by simpa using hpk
        have hpk' : (p.1 == k') = false := by
          simp only [beq_eq_false_iff_ne, ne_eq, hp1]
          exact fun hc => hne hc.symm
        simp [hpk, hpk', ih2]
      · have hpk0 : (p.1 == k) = false := by simpa using hpk
        cases hpk' : (p.1 == k') <;> simp [hpk0, hpk', ih2]

/-- The append branch of dictSet leaves other keys unchanged. -/
theorem dictGet_append_ne {α : Type} (k k' : String) (v : α) (hne : k' ≠ k) :
    ∀ d : List (String × α), dictGet (d ++ [(k, v)]) k' = dictGet d k' := by
  intro d
  induction d with
  | nil =>
      show dictGet [(k, v)] k' = dictGet [] k'
      rw [dictGet_cons]
      have : (k == k') = false := by
        simp only [beq_eq_false_iff_ne, ne_eq]
        exact fun hc => hne hc.symm
      simp [this, dictGet]
  | cons p rest ih =>
      rw [List.cons_append, dictGet_cons, dictGet_cons]
      cases hpk' : (p.1 == k') <;> simp [hpk', ih]

/-- Setting one key leaves lookups of other keys unchanged. -/
theorem dictGet_dictSet_ne {α : Type} (d : List (String × α)) (k k' : String) (v : α)
    (hne : k' ≠ k) : dictGet (dictSet d k v) k' = dictGet d k' := by
  unfold dictSet
  split
  · exact dictGet_map_set_ne k k' v hne d
  · exact dictGet_append_ne k k' v hne d

/-- The in-place update map of dictSet makes the key read back the new
value, provided the key occurs. -/
theorem dictGet_map_set_self {α : Type} (k : String) (v : α) :
    ∀ d : List (String × α), (d.any (fun p => p.1 == k)) = true →
      dictGet (d.map (fun p => if p.1 == k then (p.1, v) else p)) k = some v := by
  intro d
  induction d with
  | nil => intro h; simp at h
  | cons p rest ih =>
      intro h
      rw [List.map_cons, dictGet_cons]
      by_cases hpk : (p.1 == k) = true
      · simp [hpk]
      · have hpk0 : (p.1 == k) = false := by simpa using hpk
        have hr : rest.any (fun p => p.1 == k) = true := by
          simpa [hpk0] using h
        have ih2 : dictGet (List.map (fun p => if p.1 = k then (p.1, v) else p) rest) k
            = some v := by simpa using ih hr
        simp [hpk0, ih2]

/-- Appending a fresh key makes it read back the appended value. -/
theorem dictGet_append_self {α : Type} (k : String) (v : α) :
    ∀ d : List (String × α), (∀ p ∈ d, (p.1 == k) = false) →
      dictGet (d ++ [(k, v)]) k = some v := by
  intro d
  induction d with
  | nil =>
      intro _
      show dictGet [(k, v)] k = some v
      rw [dictGet_cons]
      simp
  | cons p rest ih =>
      intro h
      rw [List.cons_append, dictGet_cons]
      have hp := h p (List.mem_cons_self p rest)
      simp only [hp, Bool.false_eq_true, if_false]
      exact ih (fun q hq => h q (List.mem_cons_of_mem p hq))

/-- Setting a key and reading it back gives the new value. -/
theorem dictGet_dictSet_self {α : Type} (d : List (String × α)) (k : String) (v : α) :
    dictGet (dictSet d k v) k = some v := by
  unfold dictSet
  split
  next h => exact dictGet_map_set_self k v d h
  next h =>
      refine dictGet_append_self k v d ?_
      intro p hp
      cases hx : p.1 == k
      · rfl
      · exact absurd (List.any_eq_true.mpr ⟨p, hp, hx⟩) h


/-- A dictGet of none means no entry has the key. -/
theorem dictGet_eq_none {α : Type} (l : List (String × α)) (k : String) :
    dictGet l k = Option.none ↔ ∀ p ∈ l, p.1 ≠ k := by
  simp [dictGet, List.find?_eq_none]

/-- A successful dictGet exhibits a member with that key. -/
theorem mem_of_dictGet {α : Type} (l : List (String × α)) (k : String) (x : α)
    (h : dictGet l k = some x) : (k, x) ∈ l := by
  unfold dictGet at h
  cases hf : l.find? (fun p => p.1 == k) with
  | none => rw [hf] at h; cases h
  | some p =>
      rw [hf] at h
      obtain ⟨p1, p2⟩ := p
      have hp := List.find?_some hf
      have hmem := List.mem_of_find?_eq_some hf
      simp only [Option.map_some', Option.some.injEq] at h
      have hp1 : p1 = k := by simpa using hp
      rw [← hp1, ← h]
      exact hmem

/-- A fold of mergeStep leaves keys absent from the folded list
unchanged. -/
theorem foldl_mergeStep_not_mem (k : String) :
    ∀ (l : List (String × List String)) (acc : List (String × String)),
      (∀ kv ∈ l, kv.1 ≠ k) →
      dictGet (l.foldl mergeStep acc) k = dictGet acc k := by
  intro l
  induction l with
  | nil => intro acc _; rfl
  | cons kv rest ih =>
      intro acc h
      rw [List.foldl_cons,
        ih (mergeStep acc kv) (fun x hx => h x (List.mem_cons_of_mem _ hx))]
      unfold mergeStep
      cases hv : kv.2 with
      | nil => rfl
      | cons v _ =>
          exact dictGet_dictSet_ne acc kv.1 k v (h kv (List.mem_cons_self _ _)).symm

/-- A fold of mergeStep stores, under each key of the folded list, the
first of its values, provided the folded keys are unique. -/
theorem foldl_mergeStep_mem (k v : String) (vs : List String) :
    ∀ (l : List (String × List String)) (acc : List (String × String)),
      (l.map Prod.fst).Nodup →
      (k, v :: vs) ∈ l →
      dictGet (l.foldl mergeStep acc) k = some v := by
  intro l
  induction l with
  | nil => intro acc _ hmem; cases hmem
  | cons kv rest ih =>
      intro acc hnd hmem
      rw [List.foldl_cons]
      rw [List.map_cons] at hnd
      have hhead := (List.nodup_cons.mp hnd).1
      have htail := (List.nodup_cons.mp hnd).2
      rcases List.mem_cons.mp hmem with heq | hmem2
      · have hkn : k ∉ rest.map Prod.fst := by
          rw [← heq] at hhead
          simpa using hhead
        rw [← heq]
        rw [foldl_mergeStep_not_mem k rest _
          (fun x hx hc => hkn (List.mem_map.mpr ⟨x, hx, hc⟩))]
        show dictGet (dictSet acc k v) k = some v
        exact dictGet_dictSet_self acc k v
      · exact ih (mergeStep acc kv) htail hmem2

/-- The dictAppend fold of parse_qs keeps keys unique and value lists
non-empty. -/
theorem foldl_dictAppend_inv :
    ∀ (ps : List (String × String)) (d : List (String × List String)),
      (d.map Prod.fst).Nodup → (∀ kv ∈ d, kv.2 ≠ []) →
      ((ps.foldl (fun d kv => dictAppend d kv.1 kv.2) d).map Prod.fst).Nodup
      ∧ (∀ kv ∈ ps.foldl (fun d kv => dictAppend d kv.1 kv.2) d, kv.2 ≠ []) := by
  intro ps
  induction ps with
  | nil => intro d h1 h2; exact ⟨h1, h2⟩
  | cons p rest ih =>
      intro d h1 h2
      rw [List.foldl_cons]
      apply ih
      · unfold dictAppend
        split
        next =>
          have hkeys : (d.map (fun q => if q.1 == p.1 then (q.1, q.2 ++ [p.2]) else q)).map Prod.fst
              = d.map Prod.fst := by
            rw [List.map_map]
            apply List.map_congr_left
            intro q _
            by_cases hq : q.1 = p.1 <;> simp [hq]
          rw [hkeys]; exact h1
        next h =>
          have hk : p.1 ∉ d.map Prod.fst := by
            intro hc
            rcases List.mem_map.mp hc with ⟨q, hq, hq1⟩
            exact h (List.any_eq_true.mpr ⟨q, hq, by simpa using hq1⟩)
          simp [List.nodup_append, h1, hk]
      · intro kv hkv
        unfold dictAppend at hkv
        split at hkv
        next =>
          rcases List.mem_map.mp hkv with ⟨q, hq, rfl⟩
          by_cases hq1 : (q.1 == p.1) = true
          · simp [hq1]
          · have hq0 : (q.1 == p.1) = false := by simpa using hq1
            simp only [hq0, Bool.false_eq_true, if_false]
            exact h2 q hq
        next =>
          rcases List.mem_append.mp hkv with hin | hin
          · exact h2 kv hin
          · have : kv = (p.1, [p.2]) := by simpa using hin
            rw [this]
            simp

/-- parse_qs produces unique keys and non-empty value lists. -/
theorem parse_qs_invariants (qs : String) :
    ((parse_qs qs).map Prod.fst).Nodup ∧ ∀ kv ∈ parse_qs qs, kv.2 ≠ [] :=
  foldl_dictAppend_inv (parse_qsl qs) [] (by simp) (by simp)

/-- Claim C8: stream_ui resolves the effective routing path to the path
component of the path parameter with its embedded query removed, and the
effective query parameters to the outer request parameters (minus
"path") merged with the path-embedded ones, the path-embedded first
value winning for every key present in both. -/
theorem stream_ui_query_merge :
    ∀ (request_params : List (String × String)) (path : String) (k : String),
      (∀ v vs, dictGet (parse_qs (urlparse_path_query path).2) k = some (v :: vs) →
          dictGet (stream_ui_resolve request_params path).2 k = some v)
        ∧ (dictGet (parse_qs (urlparse_path_query path).2) k = Option.none →
          dictGet (stream_ui_resolve request_params path).2 k
            = dictGet (request_params.filter (fun p => p.1 ≠ "path")) k)
        ∧ (stream_ui_resolve request_params path).1 = (urlparse_path_query path).1
        ∧ stream_ui_resolve [("a", "1"), ("page", "9")] "/tickets?page=2"
            = ("/tickets", [("a", "1"), ("page", "2")]) := by
  intro rp path k
  have hres : (stream_ui_resolve rp path).2
      = (parse_qs (urlparse_path_query path).2).foldl mergeStep
          (rp.filter (fun p => p.1 ≠ "path")) := rfl
  refine ⟨?_, ?_, rfl, by rfl⟩
  · intro v vs h
    rw [hres]
    exact foldl_mergeStep_mem k v vs _ _
      (parse_qs_invariants (urlparse_path_query path).2).1
      (mem_of_dictGet _ _ _ h)
  · intro h
    rw [hres]
    exact foldl_mergeStep_not_mem k _ _ ((dictGet_eq_none _ _).mp h)

/-- Claim C8 witness: for the request parameters a=1, page=9 and the
path parameter /tickets?page=2, the merged page value is the
path-embedded 2. -/
theorem stream_ui_query_merge_witness :
    dictGet (stream_ui_resolve [("a", "1"), ("page", "9")] "/tickets?page=2").2 "page"
      = some "2" :=
  (stream_ui_query_merge [("a", "1"), ("page", "9")] "/tickets?page=2" "page").1 "2" [] (by rfl)


/-- The error branch entered with a fresh builder emits exactly one
surfaceUpdate carrying the error page wrapped in the app layout, then
one beginRendering rooted at app-layout. -/
theorem error_page_messages_spec (e : String) :
    error_page_messages (A2UIBuilder.init "main") e
      = [Msg.surfaceUpdate "main" (error_page_components e),
         Msg.beginRendering "main" "app-layout"] := rfl

/-- The last component the error branch builds is the app-layout column
whose content child is the error page root. -/
theorem error_page_components_last (e : String) :
    (error_page_components e).getLast?
      = some ⟨"app-layout", Comp.Column ["nav-header", "divider-nav", "error-page"]
          Option.none Option.none⟩ := by
  simp only [error_page_components, build_app_layout, build_error_page,
    A2UIBuilder.reset, A2UIBuilder.init, A2UIBuilder.icon, A2UIBuilder.text,
    A2UIBuilder.row, A2UIBuilder.button, A2UIBuilder.column, A2UIBuilder.divider,
    A2UIBuilder.push, List.nil_append, List.cons_append, List.append_nil]
  rfl

/-- Claim C1 counterexample: on the concrete stream request
/tickets/abc whose attachments fetch raises, the final beginRendering is
rooted at "app-layout", while the error page root component returned by
build_error_page is "error-page"; the two differ, so the sequence does
not end with a beginRendering whose root is the error page root
component. -/
theorem detail_attachments_error_root_is_layout :
    (generate_page_messages attachmentsFailBackend "/tickets/abc" []).getLast?
        = some (Msg.beginRendering "main" "app-layout")
      ∧ (build_error_page (A2UIBuilder.init "main") "boom").2.1 = "error-page"
      ∧ "app-layout" ≠ "error-page" :=
  ⟨rfl, rfl, by decide⟩

/-- Claim C1 (amended): a stream request for a ticket-detail path whose
attachments fetch raises still yields a well-formed two-message sequence
(one surfaceUpdate, then beginRendering last, never a sequence lacking
beginRendering); the beginRendering root is "app-layout", the layout
column whose content child is the error page root "error-page". -/
theorem detail_attachments_error_sequence :
    ∀ (backend : Backend) (qp : List (String × String)) (path : String)
      (t : TicketD) (e : String),
      strStartsWith path "/tickets/" = true →
      path ≠ "/tickets/new" →
      strEndsWith path "/edit" = false →
      backend.get_ticket ((strSplitOn path "/").getD 2 "") = Except.ok t →
      backend.get_ticket_attachments ((strSplitOn path "/").getD 2 "") = Except.error e →
      generate_page_messages backend path qp
          = [Msg.surfaceUpdate "main" (error_page_components e),
             Msg.beginRendering "main" "app-layout"]
        ∧ (generate_page_messages backend path qp).getLast?
            = some (Msg.beginRendering "main" "app-layout")
        ∧ (error_page_components e).getLast?
            = some ⟨"app-layout", Comp.Column ["nav-header", "divider-nav", "error-page"]
                Option.none Option.none⟩
        ∧ (build_error_page (A2UIBuilder.init "main") e).2.1 = "error-page" := by
  intro backend qp path t e hstart hnew hedit hticket hatt
  have hroute : generate_page_messages backend path qp
      = error_page_messages (A2UIBuilder.init "main") e := by
    unfold generate_page_messages
    rw [if_neg, if_neg, if_neg, if_pos hstart]
    · simp only [hticket, hatt]
    · intro hc
      rw [hedit] at hc
      exact Bool.false_ne_true hc.2
    · exact hnew
    · rintro (rfl | rfl)
      · exact absurd hstart (by decide)
      · exact absurd hstart (by decide)
  rw [hroute, error_page_messages_spec]
  exact ⟨rfl, rfl, error_page_components_last e, rfl⟩

/-- Claim C1 witness: the amended sequence at the concrete failing
request. -/
theorem detail_attachments_error_sequence_witness :
    (generate_page_messages attachmentsFailBackend "/tickets/abc" []).getLast?
      = some (Msg.beginRendering "main" "app-layout") :=
  (detail_attachments_error_sequence attachmentsFailBackend [] "/tickets/abc"
    ticketAbc "boom" rfl (by decide) rfl rfl rfl).2.1


/-- Claim C2: on the tickets list routes "/" and "/tickets" with a
successful backend fetch, the page-data call raises TypeError (it passes
five arguments to the one-parameter build_tickets_data), so after the
list surfaceUpdate the stream carries the error-page sequence — a
surfaceUpdate built after reset, then beginRendering — and no
dataModelUpdate at all; on "/tickets/new" with a successful tags fetch,
build_ticket_create_page(builder, tags) raises before any yield, so only
the error-page sequence is emitted. -/
theorem list_create_routes_arity_error :
    ∀ (backend : Backend) (qp : List (String × String)) (path : String)
      (resp : TicketsResponse) (tags : List TagD),
      (path = "/" ∨ path = "/tickets") →
      backend.list_tickets
          (if dictGetD qp "search" "" ≠ "" then some (dictGetD qp "search" "") else Option.none)
          (if dictGetD qp "status" "" ≠ "" then some (dictGetD qp "status" "") else Option.none)
          (if dictGetD qp "priority" "" ≠ "" then some (dictGetD qp "priority" "") else Option.none)
          (safe_int ((dictGet qp "page").map PyVal.str) 1) = Except.ok resp →
      backend.list_tags () = Except.ok tags →
      generate_page_messages backend path qp
          = (build_app_layout (build_tickets_page (A2UIBuilder.init "main")).1
              (build_tickets_page (A2UIBuilder.init "main")).2.1 "tickets").build_surface_update
            :: [Msg.surfaceUpdate "main" (error_page_components build_tickets_data_arity_message),
                Msg.beginRendering "main" "app-layout"]
        ∧ (generate_page_messages backend path qp).getLast?
            = some (Msg.beginRendering "main" "app-layout")
        ∧ (∀ m ∈ generate_page_messages backend path qp,
            ∀ sid p c, m ≠ Msg.dataModelUpdate sid p c)
        ∧ generate_page_messages backend "/tickets/new" qp
            = [Msg.surfaceUpdate "main" (error_page_components build_ticket_create_page_arity_message),
               Msg.beginRendering "main" "app-layout"]
        ∧ (generate_page_messages backend "/tickets/new" qp).getLast?
            = some (Msg.beginRendering "main" "app-layout") := by
  intro backend qp path resp tags hpath hlist htags
  have h1 : generate_page_messages backend path qp
      = (build_app_layout (build_tickets_page (A2UIBuilder.init "main")).1
          (build_tickets_page (A2UIBuilder.init "main")).2.1 "tickets").build_surface_update
        :: [Msg.surfaceUpdate "main" (error_page_components build_tickets_data_arity_message),
            Msg.beginRendering "main" "app-layout"] := by
    rcases hpath with rfl | rfl <;>
      (unfold generate_page_messages
       rw [if_pos (by simp)]
       simp only [hlist]
       rfl)
  have h2 : generate_page_messages backend "/tickets/new" qp
      = [Msg.surfaceUpdate "main" (error_page_components build_ticket_create_page_arity_message),
         Msg.beginRendering "main" "app-layout"] := by
    unfold generate_page_messages
    rw [if_neg (by decide), if_pos rfl]
    simp only [htags]
    exact error_page_messages_spec build_ticket_create_page_arity_message
  refine ⟨h1, ?_, ?_, h2, ?_⟩
  · rw [h1]; rfl
  · rw [h1]
    intro m hm sid p c heq
    simp only [List.mem_cons, List.not_mem_nil, or_false] at hm
    rcases hm with rfl | rfl | rfl
    · exact Msg.noConfusion heq
    · exact Msg.noConfusion heq
    · exact Msg.noConfusion heq
  · rw [h2]; rfl

/-- Claim C2 witness: the concrete backend with an empty first tickets
page and an empty tag list, on path /tickets with no query. -/
theorem list_create_routes_arity_error_witness :
    (generate_page_messages listOkBackend "/tickets" []).getLast?
      = some (Msg.beginRendering "main" "app-layout") :=
  (list_create_routes_arity_error listOkBackend [] "/tickets"
    { data := some [], page := some 1, total_pages := some 1 } []
    (Or.inr rfl) rfl rfl).2.1

end A2UI
